import Mathlib

/-! OGR NAS driver: identification and opening.

A shallow embedding of `ogr/ogrsf_frmts/nas/ogrnasdriver.cpp`
(`OGRNASDriverIdentify`, `OGRNASDriverOpen`, `RegisterOGRNAS`) and theorems about it.

Conventions of the embedding.

* A byte is a `Nat`.  A `const char *` is the list of the bytes from the pointer to the end
  of its buffer; the zero terminator that follows the buffer is implicit, so dereferencing
  an exhausted pointer yields `0`.  Pointer increment is `List.tail`, `p += 3` is
  `List.drop 3`.
* `pabyHeader` holds the `nHeaderBytes` bytes that were read from the stream, hence
  `nHeaderBytes` is its length (`GDALOpenInfo` keeps a zero byte right behind them).
* `int` results that are only ever `TRUE`/`FALSE` are `Bool`.
* Calls that leave the function (`TryToIngest`, `CPLDebug`, `VSIFCloseL`, the data source)
  are recorded, in program order, in a list of `Event`s.
* The two scans of the sniffer are given a second time on the memory behind `pabyHeader`
  (`quickCheckMem`, `deepCheckMem`), with the offsets they read; `quickCheckMem_spec` and
  `deepCheckMem_spec` relate them to the scans of `OGRNASDriverIdentify`.
* The driver catalog is passed to `RegisterOGRNAS` and returned by it.
-/

namespace OGRNAS

/-! ## C library pieces used by the driver -/

/-- ASCII bytes of a string literal (all literals of the driver are plain ASCII). -/
def bytes (s : String) : List Nat := s.toList.map Char.toNat

/-- The C function `isspace` in the "C" locale: space, `\t`, `\n`, `\v`, `\f`, `\r`. -/
def isspace (c : Nat) : Bool := c == 32 || (9 ≤ c && c ≤ 13)

/-- Value of `*p`: the byte under the pointer, the terminator when the buffer is exhausted. -/
def deref (p : List Nat) : Nat := p.headD 0

/-- The C function `memcmp(s1, s2, n)`: zero exactly when the first `n` bytes agree,
otherwise the difference of the first pair of bytes that differ. -/
def memcmp (s1 s2 : List Nat) : Nat → Int
  | 0 => 0
  | n + 1 =>
    if deref s1 = deref s2 then memcmp s1.tail s2.tail n
    else (deref s1 : Int) - (deref s2 : Int)

/-- The bytes of the C string a pointer designates: everything before the first zero byte. -/
def cstr (p : List Nat) : List Nat := p.takeWhile (fun c => c != 0)

/-- Scan of `strstr`: the first position of `haystack` at which `needle` starts. -/
def strstrFrom (needle : List Nat) : List Nat → Option (List Nat)
  | [] => if needle.isEmpty then some [] else none
  | c :: cs =>
    if needle.isPrefixOf (c :: cs) then some (c :: cs) else strstrFrom needle cs

/-- The C function `strstr(haystack, needle)`: `none` is the null pointer, `some p` the
first occurrence.  Both arguments are read as C strings. -/
def strstr (haystack needle : List Nat) : Option (List Nat) :=
  strstrFrom (cstr needle) (cstr haystack)

/-! ## GDAL pieces used by the driver -/

/-- Access mode of an open request (`GDALAccess`). -/
inductive GDALAccess
  | GA_ReadOnly
  | GA_Update
  deriving DecidableEq, Repr

/-- The fields and methods of `GDALOpenInfo` the driver uses.  The class is declared outside
this file; its two methods are taken as they are observed by the caller:
`IsSingleAllowedDriver name` is the result of `poOpenInfo->IsSingleAllowedDriver(name)`, and
`TryToIngest n` is the outcome of `poOpenInfo->TryToIngest(n)` on this stream: `none` when
the call returns `FALSE`, `some buf` when it returns `TRUE` and leaves `buf` in
`pabyHeader`. -/
structure GDALOpenInfo where
  /-- Stream handle, `none` for the null pointer. -/
  fpL : Option Nat
  /-- Header bytes read so far. -/
  pabyHeader : List Nat
  eAccess : GDALAccess
  pszFilename : String
  IsSingleAllowedDriver : String → Bool
  TryToIngest : Nat → Option (List Nat)

/-- Number of bytes in `pabyHeader`. -/
def GDALOpenInfo.nHeaderBytes (poOpenInfo : GDALOpenInfo) : Nat :=
  poOpenInfo.pabyHeader.length

/-- Process-wide configuration: the value of every configuration option that is set. -/
abbrev Config := String → Option (List Nat)

/-- Modelled from the spec: `CPLGetConfigOption` is defined outside this file (in the CPL
configuration utilities).  The spec describes a read-only lookup `get(key) -> optional<string>`
in process-wide configuration that "falls back to a built-in default" when the key is unset:
the call `CPLGetConfigOption(pszKey, pszDefault)` yields the value of the option when it is
set and `pszDefault` otherwise (`none` is the null pointer). -/
def CPLGetConfigOption (cfg : Config) (pszKey : String) (pszDefault : Option (List Nat)) :
    Option (List Nat) :=
  match cfg pszKey with
  | some v => some v
  | none => pszDefault

/-- Token scan of `CSLTokenizeStringComplex` below: `tok` is the token collected so far; a
delimiter byte ends it, and it is kept when it is not empty. -/
def tokenizeFrom (pszDelimiters : List Nat) : List Nat → List Nat → List (List Nat)
  | [], tok => if tok.isEmpty then [] else [tok]
  | c :: cs, tok =>
    if c ∈ pszDelimiters then
      (if tok.isEmpty then tokenizeFrom pszDelimiters cs []
       else tok :: tokenizeFrom pszDelimiters cs [])
    else tokenizeFrom pszDelimiters cs (tok ++ [c])

/-- Modelled from the spec: `CSLTokenizeStringComplex` is defined outside this file
(in the CPL string utilities).  The spec has the indicator list "parsed by splitting a
semicolon-delimited configuration string" into an ordered sequence; the call passes
`bHonourStrings = 0` and `bAllowEmptyTokens = 0`, so the C string is cut at every delimiter
byte, quotes have no special meaning and empty tokens are not kept.  A null string gives the
empty list. -/
def CSLTokenizeStringComplex (pszString : Option (List Nat)) (pszDelimiters : List Nat) :
    List (List Nat) :=
  match pszString with
  | none => []
  | some s => tokenizeFrom (cstr pszDelimiters) (cstr s) []

/-! ## The driver -/

/-- Calls that leave the driver, in program order. -/
inductive Event
  /-- The call `poOpenInfo->TryToIngest(nBytes)`. -/
  | ingest (nBytes : Nat)
  /-- The call `CPLDebug(category, message)`. -/
  | debug (category message : String)
  /-- The call `VSIFCloseL(fp)`. -/
  | close (fp : Option Nat)
  /-- The assignment `poOpenInfo->fpL = nullptr`. -/
  | clearHandle
  /-- The allocation `new OGRNASDataSource()`. -/
  | newDataSource
  /-- The call `poDS->Open(pszFilename)`. -/
  | dsOpen (pszFilename : String)
  /-- The statement `delete poDS`. -/
  | deleteDataSource
  deriving DecidableEq, Repr

/-- The UTF-8 byte order mark `"\xEF\xBB\xBF"`. -/
def utf8BOM : List Nat := [0xEF, 0xBB, 0xBF]

/-- The required marker `"opengis.net/gml"`. -/
def gmlMarker : List Nat := bytes "opengis.net/gml"

/-- Built-in value of `NAS_INDICATOR`. -/
def defaultIndicators : List Nat := bytes "NAS-Operationen;AAA-Fachschema;aaa.xsd;aaa-suite"

/-- Text passed to `CPLDebug` when the template option is missing. -/
def templateHint : String :=
  "This file could be recognized by the NAS driver. " ++
  "If this is desired, you need to define the NAS_GFS_TEMPLATE " ++
  "configuration option."

/-- Lines 52-59: the scan pointer once a UTF-8 BOM, if any, is skipped. -/
def skipBOM (poOpenInfo : GDALOpenInfo) : List Nat :=
  if poOpenInfo.nHeaderBytes > 3 ∧ memcmp poOpenInfo.pabyHeader utf8BOM 3 = 0 then
    poOpenInfo.pabyHeader.drop 3
  else poOpenInfo.pabyHeader

/-- Lines 62-63: `while (*pszPtr && isspace(*pszPtr)) ++pszPtr;`. -/
def skipSpaces : List Nat → List Nat
  | [] => []
  | c :: cs => if c ≠ 0 ∧ isspace c = true then skipSpaces cs else c :: cs

/-- Lines 89-93: the loop over `papszIndicators`, started with the current `bFound`. -/
def indicatorLoop (pszPtr : List Nat) : List (List Nat) → Bool → Bool
  | [], bFound => bFound
  | ind :: rest, bFound =>
    if bFound then bFound else indicatorLoop pszPtr rest (strstr pszPtr ind).isSome

/-- Lines 84-87: the indicator list in effect, tokenised from `NAS_INDICATOR` or from the
built-in default. -/
def loadIndicators (cfg : Config) : List (List Nat) :=
  CSLTokenizeStringComplex
    (CPLGetConfigOption cfg "NAS_INDICATOR" (some defaultIndicators)) (bytes ";")

/-- Outcome of one call of `OGRNASDriverIdentify`. -/
structure IdentifyResult where
  /-- Returned value: `true` for `TRUE`. -/
  ret : Bool
  /-- The open info after the call. -/
  info : GDALOpenInfo
  /-- Calls made, in order. -/
  events : List Event

/-- The function `OGRNASDriverIdentify(poOpenInfo)`. -/
def OGRNASDriverIdentify (cfg : Config) (poOpenInfo : GDALOpenInfo) : IdentifyResult :=
  if poOpenInfo.fpL = none then ⟨false, poOpenInfo, []⟩
  else
    let pszPtr := skipSpaces (skipBOM poOpenInfo)
    if deref pszPtr ≠ 60 then ⟨false, poOpenInfo, []⟩
    else if poOpenInfo.IsSingleAllowedDriver "NAS" = true then ⟨true, poOpenInfo, []⟩
    else
      match poOpenInfo.TryToIngest 8192 with
      | none => ⟨false, poOpenInfo, [Event.ingest 8192]⟩
      | some buf =>
        let info : GDALOpenInfo := { poOpenInfo with pabyHeader := buf }
        let pszPtr := info.pabyHeader
        if strstr pszPtr gmlMarker = none then ⟨false, info, [Event.ingest 8192]⟩
        else
          let papszIndicators := loadIndicators cfg
          let bFound := indicatorLoop pszPtr papszIndicators false
          if bFound = true ∧ CPLGetConfigOption cfg "NAS_GFS_TEMPLATE" none = none then
            ⟨false, info, [Event.ingest 8192, Event.debug "NAS" templateHint]⟩
          else ⟨bFound, info, [Event.ingest 8192]⟩

/-- The object `new OGRNASDataSource()` yields once `Open(pszFilename)` has succeeded on it.
The class is declared outside this file; only the name it was opened from is kept. -/
structure OGRNASDataSource where
  pszName : String
  deriving DecidableEq, Repr

/-- Outcome of one call of `OGRNASDriverOpen`. -/
structure OpenResult where
  /-- Returned pointer, `none` for the null pointer. -/
  ret : Option OGRNASDataSource
  /-- The open info after the call. -/
  info : GDALOpenInfo
  /-- Calls made, in order. -/
  events : List Event

/-- The function `OGRNASDriverOpen(poOpenInfo)`.  `dsOpen name` is the result of
`OGRNASDataSource::Open(name)`, a method defined outside this file. -/
def OGRNASDriverOpen (cfg : Config) (dsOpen : String → Bool) (poOpenInfo : GDALOpenInfo) :
    OpenResult :=
  if poOpenInfo.eAccess = GDALAccess.GA_Update then ⟨none, poOpenInfo, []⟩
  else
    let r := OGRNASDriverIdentify cfg poOpenInfo
    if r.ret = false then ⟨none, r.info, r.events⟩
    else
      let closed := r.events ++ [Event.close r.info.fpL, Event.clearHandle]
      let info : GDALOpenInfo := { r.info with fpL := none }
      if dsOpen info.pszFilename = false then
        ⟨none, info,
          closed ++ [Event.newDataSource, Event.dsOpen info.pszFilename, Event.deleteDataSource]⟩
      else
        ⟨some ⟨info.pszFilename⟩, info,
          closed ++ [Event.newDataSource, Event.dsOpen info.pszFilename]⟩

/-! ## The scans on the memory of the header

The memory behind `pabyHeader` is the list of the bytes of its allocation: the
`nHeaderBytes` bytes read, the zero byte `GDALOpenInfo` keeps behind them, and whatever
follows.  A read outside the allocation has no result (`none`).  Every function below
returns, next to its result, the offsets it read, in order. -/

/-- The C function `memcmp(pabyHeader + p, s2, n)` on memory: `s1` is the memory from
offset `p` on. -/
def memcmpMem (p : Nat) : List Nat → List Nat → Nat → Option (Int × List Nat)
  | _, _, 0 => some (0, [])
  | [], _, _ + 1 => none
  | a :: s1, s2, n + 1 =>
    if a = deref s2 then (memcmpMem (p + 1) s1 s2.tail n).map (fun r => (r.1, p :: r.2))
    else some ((a : Int) - (deref s2 : Int), [p])

/-- Lines 62-63 on memory: the loop started at offset `p`, the list being the memory from
`p` on; the result is the offset at which the loop stops. -/
def skipSpacesMem (p : Nat) : List Nat → Option (Nat × List Nat)
  | [] => none
  | c :: cs =>
    if c ≠ 0 ∧ isspace c = true then
      (skipSpacesMem (p + 1) cs).map (fun r => (r.1, p :: r.2))
    else some (p, [p])

/-- Outcome of lines 52-69 on memory. -/
structure QuickScan where
  /-- Whether `pszPtr[0]` is `<`. -/
  pass : Bool
  /-- Offset of `pszPtr` when the loop has stopped. -/
  cursor : Nat
  /-- Offsets read, in order. -/
  reads : List Nat
  /-- Whether `memcmp` was called. -/
  bomCompared : Bool
  deriving DecidableEq, Repr

/-- Lines 52-69 on memory: the BOM test, guarded by `nHeaderBytes > 3`, the whitespace
loop and the read of `pszPtr[0]`. -/
def quickCheckMem (mem : List Nat) (nHeaderBytes : Nat) : Option QuickScan :=
  let bom : Option (Nat × List Nat × Bool) :=
    if nHeaderBytes > 3 then
      match memcmpMem 0 mem utf8BOM 3 with
      | none => none
      | some (r, rs) => some (if r = 0 then 3 else 0, rs, true)
    else some (0, [], false)
  match bom with
  | none => none
  | some (start, rs1, compared) =>
    match skipSpacesMem start (mem.drop start) with
    | none => none
    | some (cursor, rs2) =>
      match mem.get? cursor with
      | none => none
      | some c => some ⟨c == 60, cursor, rs1 ++ rs2 ++ [cursor], compared⟩

/-- Inner loop of `strstr` on memory: the needle against the memory from offset `p` on;
`true` when the whole needle was matched. -/
def matchAtMem (p : Nat) : List Nat → List Nat → Option (Bool × List Nat)
  | _, [] => some (true, [])
  | [], _ :: _ => none
  | c :: cs, d :: ds =>
    if c = d then (matchAtMem (p + 1) cs ds).map (fun r => (r.1, p :: r.2))
    else some (false, [p])

/-- Outer loop of `strstr` on memory: it tries every offset from `p` on and stops at the
first zero byte. -/
def strstrScan (needle : List Nat) (p : Nat) : List Nat → Option (Option Nat × List Nat)
  | [] => none
  | c :: cs =>
    if c = 0 then some (none, [p])
    else
      match matchAtMem p (c :: cs) needle with
      | none => none
      | some (found, rs) =>
        if found then some (some p, rs)
        else (strstrScan needle (p + 1) cs).map (fun r => (r.1, rs ++ r.2))

/-- The C function `strstr(pabyHeader, needle)` on memory: the offset of the first
occurrence, `none` for the null pointer. -/
def strstrMem (mem needle : List Nat) : Option (Option Nat × List Nat) :=
  if (cstr needle).isEmpty then some (some 0, [])
  else strstrScan (cstr needle) 0 mem

/-- Lines 89-93 on memory. -/
def indicatorLoopMem (mem : List Nat) : List (List Nat) → Bool → Option (Bool × List Nat)
  | [], bFound => some (bFound, [])
  | ind :: rest, bFound =>
    if bFound then some (bFound, [])
    else
      match strstrMem mem ind with
      | none => none
      | some (r, rs) =>
        (indicatorLoopMem mem rest r.isSome).map (fun q => (q.1, rs ++ q.2))

/-- Outcome of lines 79-107 on memory. -/
structure DeepScan where
  /-- Returned value. -/
  ret : Bool
  /-- Diagnostics recorded. -/
  events : List Event
  /-- Offsets read, in order. -/
  reads : List Nat
  deriving DecidableEq, Repr

/-- Lines 79-107 on memory: what `OGRNASDriverIdentify` does once `TryToIngest` has
succeeded, `mem` being the memory behind the new `pabyHeader`. -/
def deepCheckMem (cfg : Config) (mem : List Nat) : Option DeepScan :=
  match strstrMem mem gmlMarker with
  | none => none
  | some (none, rs) => some ⟨false, [], rs⟩
  | some (some _, rs) =>
    match indicatorLoopMem mem (loadIndicators cfg) false with
    | none => none
    | some (bFound, rs2) =>
      if bFound = true ∧ CPLGetConfigOption cfg "NAS_GFS_TEMPLATE" none = none then
        some ⟨false, [Event.debug "NAS" templateHint], rs ++ rs2⟩
      else some ⟨bFound, [], rs ++ rs2⟩

/-! ## Registration -/

/-- Metadata keys the registration sets: macros of the GDAL headers, which are outside this
file, so each is known by its name only. -/
inductive MetadataKey
  | GDAL_DCAP_VECTOR
  | GDAL_DMD_LONGNAME
  | GDAL_DMD_EXTENSION
  | GDAL_DMD_HELPTOPIC
  | GDAL_DCAP_VIRTUALIO
  | GDAL_DMD_SUPPORTED_SQL_DIALECTS
  deriving DecidableEq, Repr

/-- The parts of a `GDALDriver` the registration sets: its description (the name it is
registered under), its metadata items and its two entry points. -/
structure GDALDriver where
  description : String
  metadata : List (MetadataKey × String)
  pfnOpen : Option (Config → (String → Bool) → GDALOpenInfo → OpenResult)
  pfnIdentify : Option (Config → GDALOpenInfo → IdentifyResult)

/-- The object `new GDALDriver()`: nothing set. -/
def GDALDriver.fresh : GDALDriver := ⟨"", [], none, none⟩

/-- The call `poDriver->SetDescription(pszName)`. -/
def GDALDriver.SetDescription (poDriver : GDALDriver) (pszName : String) : GDALDriver :=
  { poDriver with description := pszName }

/-- The call `poDriver->SetMetadataItem(key, value)`: the item replaces an earlier one with
the same key. -/
def GDALDriver.SetMetadataItem (poDriver : GDALDriver) (key : MetadataKey) (value : String) :
    GDALDriver :=
  { poDriver with
    metadata := poDriver.metadata.filter (fun item => item.1 != key) ++ [(key, value)] }

/-- Modelled from the spec: the driver manager is outside this file.  The spec has a
"process-wide catalog keyed by name": a list of drivers no two of which have the same
name. -/
structure DriverCatalog where
  drivers : List GDALDriver
  keyed : (drivers.map GDALDriver.description).Nodup

/-- Modelled from the spec: `GDALGetDriverByName` is defined outside this file; it looks a
driver up in the catalog by its name, `none` being the null pointer. -/
def GDALGetDriverByName (catalog : DriverCatalog) (pszName : String) : Option GDALDriver :=
  catalog.drivers.find? (fun d => d.description == pszName)

/-- Modelled from the spec: `GDALDriverManager::RegisterDriver` is defined outside this
file.  The spec asks that "registering twice under the same name is a no-op": a driver whose
name is in the catalog is not added, any other is added at the end. -/
def RegisterDriver (catalog : DriverCatalog) (poDriver : GDALDriver) : DriverCatalog :=
  if h : (GDALGetDriverByName catalog poDriver.description).isSome = true then catalog
  else
    { drivers := catalog.drivers ++ [poDriver]
      keyed := by
        have hnone : ∀ d ∈ catalog.drivers, ¬ d.description = poDriver.description := by
          intro d hd heq
          apply h
          rw [GDALGetDriverByName, List.find?_isSome]
          exact ⟨d, hd, by simpa using heq⟩
        rw [List.map_append, List.nodup_append]
        refine ⟨catalog.keyed, by simp, ?_⟩
        intro name hname hname2
        simp only [List.map_cons, List.map_nil, List.mem_singleton] at hname2
        obtain ⟨d, hd, hdn⟩ := List.mem_map.1 hname
        exact hnone d hd (hdn.trans hname2) }

/-- Lines 144-155: the driver object `RegisterOGRNAS` builds. -/
def nasDriver : GDALDriver :=
  let poDriver := GDALDriver.fresh
  let poDriver := poDriver.SetDescription "NAS"
  let poDriver := poDriver.SetMetadataItem MetadataKey.GDAL_DCAP_VECTOR "YES"
  let poDriver := poDriver.SetMetadataItem MetadataKey.GDAL_DMD_LONGNAME "NAS - ALKIS"
  let poDriver := poDriver.SetMetadataItem MetadataKey.GDAL_DMD_EXTENSION "xml"
  let poDriver :=
    poDriver.SetMetadataItem MetadataKey.GDAL_DMD_HELPTOPIC "drivers/vector/nas.html"
  let poDriver := poDriver.SetMetadataItem MetadataKey.GDAL_DCAP_VIRTUALIO "YES"
  let poDriver :=
    poDriver.SetMetadataItem MetadataKey.GDAL_DMD_SUPPORTED_SQL_DIALECTS "OGRSQL SQLITE"
  let poDriver := { poDriver with pfnOpen := some OGRNASDriverOpen }
  { poDriver with pfnIdentify := some OGRNASDriverIdentify }

/-- The function `RegisterOGRNAS()`, on the catalog of the driver manager. -/
def RegisterOGRNAS (catalog : DriverCatalog) : DriverCatalog :=
  if (GDALGetDriverByName catalog "NAS").isSome = true then catalog
  else RegisterDriver catalog nasDriver

/-- The catalog with no driver. -/
def emptyCatalog : DriverCatalog := ⟨[], List.nodup_nil⟩

/-- Number of drivers of the catalog registered under a name. -/
def DriverCatalog.entries (catalog : DriverCatalog) (pszName : String) : Nat :=
  (catalog.drivers.filter (fun d => d.description == pszName)).length

/-! ## The spec's quick check -/

/-- ASCII whitespace: space, tab, line feed, vertical tab, form feed, carriage return. -/
def asciiWhitespace (c : Nat) : Bool :=
  c == 32 || c == 9 || c == 10 || c == 11 || c == 12 || c == 13

/-- QuickCheck as the spec words it (section 4.1): an empty header is rejected; if the first
three bytes are the UTF-8 BOM the cursor moves past them; the cursor moves past any ASCII
whitespace; the header passes when the byte at the cursor is `<`. -/
def specQuickCheck (header : List Nat) : Bool :=
  if header.isEmpty then false
  else
    let cursor := if header.take 3 = utf8BOM then header.drop 3 else header
    (cursor.dropWhile asciiWhitespace).head? == some 60

/-! ## Sample inputs -/

/-- A read-only request on an open stream with header `hdr`, pinned to this driver or not,
whose stream answers any ingest request with `ing`.  For a file shorter than the header
read, `ing` is `some hdr`. -/
def sampleInfo (hdr : List Nat) (pinned : Bool) (ing : Option (List Nat)) : GDALOpenInfo where
  fpL := some 1
  pabyHeader := hdr
  eAccess := GDALAccess.GA_ReadOnly
  pszFilename := "alkis.xml"
  IsSingleAllowedDriver := fun name => pinned && name == "NAS"
  TryToIngest := fun _ => ing

/-- The header `"\xEF\xBB\xBF  <root/>"`. -/
def bomRoot : List Nat := utf8BOM ++ bytes "  <root/>"

/-- A configuration with no option set. -/
def noConfig : Config := fun _ => none

/-- A configuration in which only `NAS_GFS_TEMPLATE` is set. -/
def templateConfig : Config :=
  fun key => if key = "NAS_GFS_TEMPLATE" then some (bytes "alkis.gfs") else none

/-- An ingested buffer with a zero byte in front of the marker and of an indicator. -/
def zeroThenMarker : List Nat := bytes "<a>" ++ 0 :: bytes "opengis.net/gml aaa.xsd"

/-- An ingested buffer with the marker and the indicator `aaa.xsd`. -/
def markerAndIndicator : List Nat := bytes "<a gml=opengis.net/gml schema=aaa.xsd>"

/-- An ingested buffer with the marker and no indicator of the default list. -/
def markerOnly : List Nat := bytes "<a gml=http://www.opengis.net/gml>"

/-- An ingested buffer with the indicator `aaa.xsd` and no marker. -/
def indicatorOnly : List Nat := bytes "<a schema=aaa.xsd>"

/-- A configuration with `NAS_INDICATOR` set to `A;B;C` and `NAS_GFS_TEMPLATE` set. -/
def abcConfig : Config :=
  fun key =>
    if key = "NAS_INDICATOR" then some (bytes "A;B;C")
    else if key = "NAS_GFS_TEMPLATE" then some (bytes "alkis.gfs")
    else none

/-- An ingested buffer with the marker and, behind a zero byte, the token `C`. -/
def markerZeroC : List Nat := bytes "<opengis.net/gml>" ++ 0 :: bytes "C"

/-- Joining strings with `;` in between. -/
def joinSemicolon : List (List Nat) → List Nat
  | [] => []
  | [s] => s
  | s :: t :: rest => s ++ 59 :: joinSemicolon (t :: rest)

/-- A configuration with `NAS_INDICATOR` set to `C;B;A` and `NAS_GFS_TEMPLATE` set. -/
def cbaConfig : Config :=
  fun key =>
    if key = "NAS_INDICATOR" then some (bytes "C;B;A")
    else if key = "NAS_GFS_TEMPLATE" then some (bytes "alkis.gfs")
    else none

/-- One more `;` in a configuration string: in front, behind, or next to another `;`. -/
def ExtraSemicolon (v v2 : List Nat) : Prop :=
  v2 = 59 :: v ∨ v2 = v ++ [59] ∨ ∃ a b, v = a ++ 59 :: b ∧ v2 = a ++ 59 :: 59 :: b

/-- A configuration with `NAS_INDICATOR` set to `;;A;;B;C;` and `NAS_GFS_TEMPLATE` set. -/
def paddedConfig : Config :=
  fun key =>
    if key = "NAS_INDICATOR" then some (bytes ";;A;;B;C;")
    else if key = "NAS_GFS_TEMPLATE" then some (bytes "alkis.gfs")
    else none

/-- A configuration with `NAS_INDICATOR` set to `;;` and `NAS_GFS_TEMPLATE` set. -/
def semicolonConfig : Config :=
  fun key =>
    if key = "NAS_INDICATOR" then some (bytes ";;")
    else if key = "NAS_GFS_TEMPLATE" then some (bytes "alkis.gfs")
    else none

/-- An ingested buffer with the marker and the token `C`. -/
def markerAndC : List Nat := bytes "<opengis.net/gml C>"

/-- Memory of a three-byte buffer `<a>`: the buffer, its terminator, one more byte. -/
def shortMemory : List Nat := bytes "<a>" ++ [0, 0]

/-- Memory that agrees with `shortMemory` on the first three bytes and has text where
`shortMemory` has its terminator. -/
def overrunMemory : List Nat := bytes "<a>" ++ bytes "opengis.net/gml aaa.xsd" ++ [0]

/-- Whether an event is an ingest request. -/
def Event.isIngest : Event → Bool
  | Event.ingest _ => true
  | _ => false

/-- Whether an event is a diagnostic. -/
def Event.isDiagnostic : Event → Bool
  | Event.debug _ _ => true
  | _ => false

/-- A request in update mode on a document the sniffer accepts, pinned to this driver. -/
def updateInfo : GDALOpenInfo :=
  { sampleInfo markerAndIndicator true (some markerAndIndicator) with
    eAccess := GDALAccess.GA_Update }

/-! ## Facts about the C library pieces -/

theorem isspace_zero : isspace 0 = false := by decide

theorem skipSpaces_eq_dropWhile (p : List Nat) : skipSpaces p = p.dropWhile isspace := by
  induction p with
  | nil => rfl
  | cons c cs ih =>
    by_cases hc : isspace c = true
    · have h0 : c ≠ 0 := by
        rintro rfl
        simp [isspace] at hc
      simp [skipSpaces, hc, h0, ih]
    · simp [skipSpaces, hc]

theorem asciiWhitespace_eq_isspace : asciiWhitespace = isspace := by
  funext c
  rw [Bool.eq_iff_iff]
  simp only [asciiWhitespace, isspace, Bool.or_eq_true, beq_iff_eq, Bool.and_eq_true,
    decide_eq_true_eq]
  omega

theorem deref_eq_chevron (p : List Nat) : deref p = 60 ↔ p.head? = some 60 := by
  cases p <;> simp [deref]

theorem memcmp_bom (a b c : Nat) (t : List Nat) :
    memcmp (a :: b :: c :: t) utf8BOM 3 = 0 ↔ a = 0xEF ∧ b = 0xBB ∧ c = 0xBF := by
  simp only [memcmp, utf8BOM, deref, List.headD_cons, List.tail_cons]
  by_cases ha : a = 239
  · by_cases hb : b = 187
    · by_cases hc : c = 191
      · simp [ha, hb, hc]
      · simp [ha, hb, hc]; omega
    · simp [ha, hb]; omega
  · simp [ha]; omega

/-- The chevron test of the code (lines 52-69) decides exactly the spec's QuickCheck. -/
theorem quickCheck_refines (poOpenInfo : GDALOpenInfo) :
    deref (skipSpaces (skipBOM poOpenInfo)) = 60 ↔
      specQuickCheck poOpenInfo.pabyHeader = true := by
  rcases poOpenInfo with ⟨fp, h, acc, name, pin, ing⟩
  simp only [skipBOM, GDALOpenInfo.nHeaderBytes, skipSpaces_eq_dropWhile, deref_eq_chevron,
    specQuickCheck, asciiWhitespace_eq_isspace]
  rcases h with _ | ⟨a, _ | ⟨b, _ | ⟨c, _ | ⟨d, t⟩⟩⟩⟩
  · simp
  · simp [utf8BOM]
  · simp [utf8BOM]
  · by_cases hb : a = 0xEF ∧ b = 0xBB ∧ c = 0xBF
    · obtain ⟨rfl, rfl, rfl⟩ := hb
      simp [utf8BOM, isspace]
    · have : ¬ ([a, b, c] = utf8BOM) := by simpa [utf8BOM] using hb
      simp [this]
  · have hlen : (a :: b :: c :: d :: t).length > 3 := by simp
    by_cases hb : a = 0xEF ∧ b = 0xBB ∧ c = 0xBF
    · have h1 : memcmp (a :: b :: c :: d :: t) utf8BOM 3 = 0 := (memcmp_bom a b c _).2 hb
      obtain ⟨rfl, rfl, rfl⟩ := hb
      have h2 : [239, 187, 191] = utf8BOM := rfl
      simp [h1, h2]
    · have h1 : ¬ memcmp (a :: b :: c :: d :: t) utf8BOM 3 = 0 :=
        fun h => hb ((memcmp_bom a b c _).1 h)
      have h2 : ¬ ([a, b, c] = utf8BOM) := by simpa [utf8BOM] using hb
      simp [h1, h2]

theorem dropWhile_isspace_chevron (ws rest : List Nat)
    (hws : ∀ c ∈ ws, c ∈ [32, 9, 10, 11, 12, 13]) :
    (ws ++ 60 :: rest).dropWhile isspace = 60 :: rest := by
  induction ws with
  | nil => simp [isspace]
  | cons w ws ih =>
    have hw : isspace w = true := by
      have := hws w (List.mem_cons_self _ _)
      simp only [List.mem_cons, List.mem_singleton, List.not_mem_nil, or_false] at this
      rcases this with rfl | rfl | rfl | rfl | rfl | rfl <;> decide
    have ih2 := ih (fun c hc => hws c (List.mem_cons_of_mem _ hc))
    simp [List.dropWhile_cons, hw, ih2]

theorem specQuickCheck_of_form (bom ws rest : List Nat)
    (hbom : bom = [] ∨ bom = utf8BOM) (hws : ∀ c ∈ ws, c ∈ [32, 9, 10, 11, 12, 13]) :
    specQuickCheck (bom ++ ws ++ 60 :: rest) = true := by
  have hdrop := dropWhile_isspace_chevron ws rest hws
  rcases hbom with rfl | rfl
  · have hne : ¬ ((ws ++ 60 :: rest).take 3 = utf8BOM) := by
      cases ws with
      | nil => simp [utf8BOM]
      | cons w ws =>
        have := hws w (List.mem_cons_self _ _)
        simp only [List.mem_cons, List.mem_singleton, List.not_mem_nil, or_false] at this
        rcases this with rfl | rfl | rfl | rfl | rfl | rfl <;> simp [utf8BOM]
    have hnil : (ws ++ 60 :: rest).isEmpty = false := by cases ws <;> rfl
    simp [specQuickCheck, asciiWhitespace_eq_isspace, hne, hnil, hdrop]
  · have h3 : (utf8BOM ++ ws ++ 60 :: rest).take 3 = utf8BOM := by simp [utf8BOM]
    have h4 : (utf8BOM ++ ws ++ 60 :: rest).drop 3 = ws ++ 60 :: rest := by simp [utf8BOM]
    have hnil : (utf8BOM ++ ws ++ 60 :: rest).isEmpty = false := rfl
    simp only [specQuickCheck, asciiWhitespace_eq_isspace, hnil, h3, h4]
    simp [hdrop]

theorem cstr_initial (p : List Nat) : cstr p <+: p := List.takeWhile_prefix _

theorem cstr_no_zero (p : List Nat) : 0 ∉ cstr p := by
  intro h
  have := List.mem_takeWhile_imp h
  simp at this

theorem cstr_of_no_zero (p : List Nat) (h : 0 ∉ p) : cstr p = p := by
  unfold cstr
  rw [List.takeWhile_eq_self_iff]
  intro c hc
  have : c ≠ 0 := fun h0 => h (h0 ▸ hc)
  simpa using this

theorem strstrFrom_isSome (needle haystack : List Nat) :
    (strstrFrom needle haystack).isSome = true ↔ needle <:+: haystack := by
  induction haystack with
  | nil =>
    cases needle <;> simp [strstrFrom]
  | cons c cs ih =>
    by_cases hp : needle <+: c :: cs
    · have hb : needle.isPrefixOf (c :: cs) = true := List.isPrefixOf_iff_prefix.2 hp
      simp [strstrFrom, hb, hp.isInfix]
    · have hb : needle.isPrefixOf (c :: cs) = false := by
        cases hq : needle.isPrefixOf (c :: cs)
        · rfl
        · exact absurd (List.isPrefixOf_iff_prefix.1 hq) hp
      simp only [strstrFrom, hb]
      rw [List.infix_cons_iff]
      simp [ih, hp]

/-- What `strstr` decides: the needle occurs in the haystack before its first zero byte. -/
theorem strstr_isSome (haystack needle : List Nat) :
    (strstr haystack needle).isSome = true ↔ cstr needle <:+: cstr haystack :=
  strstrFrom_isSome _ _

theorem strstr_eq_none (haystack needle : List Nat) :
    strstr haystack needle = none ↔ ¬ cstr needle <:+: cstr haystack := by
  rw [← strstr_isSome]
  cases strstr haystack needle <;> simp

theorem infix_of_infix_cstr (needle haystack : List Nat) (h : needle <:+: cstr haystack) :
    needle <:+: haystack :=
  h.trans (cstr_initial haystack).isInfix

theorem indicatorLoop_true (pszPtr : List Nat) (l : List (List Nat)) :
    indicatorLoop pszPtr l true = true := by
  cases l <;> simp [indicatorLoop]

/-- The loop of lines 89-93 finds a match exactly when some indicator is found by `strstr`. -/
theorem indicatorLoop_false (pszPtr : List Nat) (l : List (List Nat)) :
    indicatorLoop pszPtr l false = true ↔ ∃ ind ∈ l, cstr ind <:+: cstr pszPtr := by
  induction l with
  | nil => simp [indicatorLoop]
  | cons ind rest ih =>
    simp only [indicatorLoop, Bool.false_eq_true, if_false, List.mem_cons, exists_eq_or_imp]
    cases hs : (strstr pszPtr ind).isSome
    · have : ¬ cstr ind <:+: cstr pszPtr := by
        rw [← strstr_isSome, hs]; simp
      simp [ih, this]
    · have : cstr ind <:+: cstr pszPtr := (strstr_isSome _ _).1 hs
      simp [indicatorLoop_true, this]

/-! ## Facts about the tokeniser -/

theorem tokenizeFrom_mem (d : List Nat) (s : List Nat) :
    ∀ (tok t : List Nat), t ∈ tokenizeFrom d s tok → ∀ c ∈ t, c ∈ s ∨ c ∈ tok := by
  induction s with
  | nil =>
    intro tok t ht c hc
    cases tok with
    | nil => simp [tokenizeFrom] at ht
    | cons x xs =>
      simp only [tokenizeFrom, List.isEmpty_cons, Bool.false_eq_true, if_false,
        List.mem_singleton] at ht
      subst ht
      exact Or.inr hc
  | cons x xs ih =>
    intro tok t ht c hc
    by_cases hx : x ∈ d
    · cases tok with
      | nil =>
        simp only [tokenizeFrom, hx, if_true, List.isEmpty_nil] at ht
        rcases ih [] t ht c hc with h | h
        · exact Or.inl (List.mem_cons_of_mem _ h)
        · exact Or.inr h
      | cons y ys =>
        simp only [tokenizeFrom, hx, if_true, List.isEmpty_cons, Bool.false_eq_true, if_false,
          List.mem_cons] at ht
        rcases ht with rfl | ht
        · exact Or.inr hc
        · rcases ih [] t ht c hc with h | h
          · exact Or.inl (List.mem_cons_of_mem _ h)
          · simp at h
    · simp only [tokenizeFrom, hx, if_false] at ht
      rcases ih (tok ++ [x]) t ht c hc with h | h
      · exact Or.inl (List.mem_cons_of_mem _ h)
      · rcases List.mem_append.1 h with h | h
        · exact Or.inr h
        · simp only [List.mem_singleton] at h
          subst h
          exact Or.inl (List.mem_cons_self _ _)

/-- No token holds a zero byte: the tokeniser reads its argument as a C string. -/
theorem tokens_no_zero (pszString : Option (List Nat)) (d t : List Nat)
    (ht : t ∈ CSLTokenizeStringComplex pszString d) : 0 ∉ t := by
  intro h0
  cases pszString with
  | none => simp [CSLTokenizeStringComplex] at ht
  | some s =>
    rcases tokenizeFrom_mem _ _ _ _ ht 0 h0 with h | h
    · exact cstr_no_zero s h
    · simp at h

theorem tokenizeFrom_append (d : List Nat) (s : List Nat) (hs : ∀ c ∈ s, c ∉ d) :
    ∀ (rest tok : List Nat),
      tokenizeFrom d (s ++ rest) tok = tokenizeFrom d rest (tok ++ s) := by
  induction s with
  | nil => simp
  | cons x xs ih =>
    intro rest tok
    have hx : x ∉ d := hs x (List.mem_cons_self _ _)
    have := ih (fun c hc => hs c (List.mem_cons_of_mem _ hc)) rest (tok ++ [x])
    have e : tok ++ x :: xs = tok ++ [x] ++ xs := by simp
    rw [e, ← this]
    simp [tokenizeFrom, hx]

theorem tokenizeFrom_join (l : List (List Nat)) (h : ∀ s ∈ l, s ≠ [] ∧ 59 ∉ s) :
    tokenizeFrom [59] (joinSemicolon l) [] = l := by
  induction l with
  | nil => rfl
  | cons s rest ih =>
    have hs := h s (List.mem_cons_self _ _)
    have hd : ∀ c ∈ s, c ∉ [59] := by
      intro c hc hmem
      simp only [List.mem_singleton] at hmem
      exact hs.2 (hmem ▸ hc)
    have hne : s.isEmpty = false := by
      cases s with
      | nil => exact absurd rfl hs.1
      | cons _ _ => rfl
    cases rest with
    | nil =>
      have := tokenizeFrom_append [59] s hd [] []
      simp only [List.append_nil, List.nil_append] at this
      simp [joinSemicolon, this, tokenizeFrom, hne]
    | cons t rest =>
      have ih2 := ih (fun x hx => h x (List.mem_cons_of_mem _ hx))
      have := tokenizeFrom_append [59] s hd (59 :: joinSemicolon (t :: rest)) []
      simp only [List.nil_append] at this
      simp [joinSemicolon, this, tokenizeFrom, hne, ih2]

theorem mem_joinSemicolon (l : List (List Nat)) (c : Nat) (hc : c ∈ joinSemicolon l) :
    c = 59 ∨ ∃ s ∈ l, c ∈ s := by
  induction l with
  | nil => simp [joinSemicolon] at hc
  | cons s rest ih =>
    cases rest with
    | nil => exact Or.inr ⟨s, List.mem_cons_self _ _, by simpa [joinSemicolon] using hc⟩
    | cons t rest =>
      simp only [joinSemicolon, List.mem_append, List.mem_cons] at hc
      rcases hc with h | h | h
      · exact Or.inr ⟨s, List.mem_cons_self _ _, h⟩
      · exact Or.inl h
      · rcases ih h with h1 | ⟨u, hu, hcu⟩
        · exact Or.inl h1
        · exact Or.inr ⟨u, List.mem_cons_of_mem _ hu, hcu⟩

/-! ## Facts about the driver -/

/-- The result of `OGRNASDriverIdentify` along each of its paths. -/
theorem identify_paths (cfg : Config) (poOpenInfo : GDALOpenInfo) :
    OGRNASDriverIdentify cfg poOpenInfo = ⟨false, poOpenInfo, []⟩ ∨
    OGRNASDriverIdentify cfg poOpenInfo = ⟨true, poOpenInfo, []⟩ ∨
    OGRNASDriverIdentify cfg poOpenInfo = ⟨false, poOpenInfo, [Event.ingest 8192]⟩ ∨
    ∃ buf b, poOpenInfo.TryToIngest 8192 = some buf ∧
      (OGRNASDriverIdentify cfg poOpenInfo =
          ⟨b, { poOpenInfo with pabyHeader := buf }, [Event.ingest 8192]⟩ ∨
       OGRNASDriverIdentify cfg poOpenInfo =
          ⟨false, { poOpenInfo with pabyHeader := buf },
            [Event.ingest 8192, Event.debug "NAS" templateHint]⟩) := by
  unfold OGRNASDriverIdentify
  by_cases h1 : poOpenInfo.fpL = none
  · simp [h1]
  by_cases h2 : deref (skipSpaces (skipBOM poOpenInfo)) = 60
  swap
  · simp [h1, h2]
  by_cases h3 : poOpenInfo.IsSingleAllowedDriver "NAS" = true
  · simp [h1, h2, h3]
  cases h4 : poOpenInfo.TryToIngest 8192 with
  | none => simp [h1, h2, h3]
  | some buf =>
    by_cases h5 : strstr buf gmlMarker = none
    · exact Or.inr (Or.inr (Or.inr ⟨buf, false, rfl, Or.inl (by simp [h1, h2, h3, h5])⟩))
    · by_cases h6 : indicatorLoop buf (loadIndicators cfg) false = true ∧
          CPLGetConfigOption cfg "NAS_GFS_TEMPLATE" none = none
      · exact Or.inr (Or.inr (Or.inr ⟨buf, false, rfl, Or.inr (by simp [h1, h2, h3, h5, h6])⟩))
      · exact Or.inr (Or.inr (Or.inr ⟨buf, indicatorLoop buf (loadIndicators cfg) false, rfl,
          Or.inl (by simp only [h1, h2, h3, h5, h6]; simp)⟩))

theorem identify_events (cfg : Config) (poOpenInfo : GDALOpenInfo) :
    (OGRNASDriverIdentify cfg poOpenInfo).events = [] ∨
    (OGRNASDriverIdentify cfg poOpenInfo).events = [Event.ingest 8192] ∨
    (OGRNASDriverIdentify cfg poOpenInfo).events =
      [Event.ingest 8192, Event.debug "NAS" templateHint] := by
  rcases identify_paths cfg poOpenInfo with h | h | h | ⟨buf, b, _, h | h⟩ <;> simp [h]

theorem identify_info (cfg : Config) (poOpenInfo : GDALOpenInfo) :
    (OGRNASDriverIdentify cfg poOpenInfo).info.fpL = poOpenInfo.fpL ∧
    (OGRNASDriverIdentify cfg poOpenInfo).info.pszFilename = poOpenInfo.pszFilename := by
  rcases identify_paths cfg poOpenInfo with h | h | h | ⟨buf, b, _, h | h⟩ <;> simp [h]

theorem identify_true_handle (cfg : Config) (poOpenInfo : GDALOpenInfo)
    (h : (OGRNASDriverIdentify cfg poOpenInfo).ret = true) : poOpenInfo.fpL ≠ none := by
  intro hfp
  simp [OGRNASDriverIdentify, hfp] at h

theorem getConfigOption_none (cfg : Config) (key : String) :
    CPLGetConfigOption cfg key none = cfg key := by
  unfold CPLGetConfigOption
  cases cfg key <;> rfl

/-- The result of `OGRNASDriverIdentify` once the stream has delivered `buf`. -/
theorem identify_deep (cfg : Config) (poOpenInfo : GDALOpenInfo) (buf : List Nat)
    (hfp : poOpenInfo.fpL ≠ none) (hqc : specQuickCheck poOpenInfo.pabyHeader = true)
    (hpin : poOpenInfo.IsSingleAllowedDriver "NAS" = false)
    (hing : poOpenInfo.TryToIngest 8192 = some buf) :
    OGRNASDriverIdentify cfg poOpenInfo =
      if strstr buf gmlMarker = none then
        ⟨false, { poOpenInfo with pabyHeader := buf }, [Event.ingest 8192]⟩
      else if indicatorLoop buf (loadIndicators cfg) false = true ∧
          cfg "NAS_GFS_TEMPLATE" = none then
        ⟨false, { poOpenInfo with pabyHeader := buf },
          [Event.ingest 8192, Event.debug "NAS" templateHint]⟩
      else
        ⟨indicatorLoop buf (loadIndicators cfg) false, { poOpenInfo with pabyHeader := buf },
          [Event.ingest 8192]⟩ := by
  have h2 := (quickCheck_refines poOpenInfo).2 hqc
  simp [OGRNASDriverIdentify, hfp, h2, hpin, hing, getConfigOption_none]

theorem cstr_gmlMarker : cstr gmlMarker = gmlMarker := by decide

/-- An indicator of the list in effect is found by the loop exactly when it occurs in the
buffer before the first zero byte. -/
theorem indicatorLoop_loadIndicators (cfg : Config) (buf : List Nat) :
    indicatorLoop buf (loadIndicators cfg) false = true ↔
      ∃ ind ∈ loadIndicators cfg, ind <:+: cstr buf := by
  rw [indicatorLoop_false]
  constructor
  · rintro ⟨ind, hmem, h⟩
    exact ⟨ind, hmem, by rwa [cstr_of_no_zero ind (tokens_no_zero _ _ _ hmem)] at h⟩
  · rintro ⟨ind, hmem, h⟩
    exact ⟨ind, hmem, by rwa [cstr_of_no_zero ind (tokens_no_zero _ _ _ hmem)]⟩

/-- The result of `OGRNASDriverIdentify` on every path, with the chevron test replaced by
the spec's QuickCheck. -/
theorem identify_eq (cfg : Config) (poOpenInfo : GDALOpenInfo) :
    OGRNASDriverIdentify cfg poOpenInfo =
      if poOpenInfo.fpL = none ∨ specQuickCheck poOpenInfo.pabyHeader = false then
        ⟨false, poOpenInfo, []⟩
      else if poOpenInfo.IsSingleAllowedDriver "NAS" = true then ⟨true, poOpenInfo, []⟩
      else
        match poOpenInfo.TryToIngest 8192 with
        | none => ⟨false, poOpenInfo, [Event.ingest 8192]⟩
        | some buf =>
          if strstr buf gmlMarker = none then
            ⟨false, { poOpenInfo with pabyHeader := buf }, [Event.ingest 8192]⟩
          else if indicatorLoop buf (loadIndicators cfg) false = true ∧
              cfg "NAS_GFS_TEMPLATE" = none then
            ⟨false, { poOpenInfo with pabyHeader := buf },
              [Event.ingest 8192, Event.debug "NAS" templateHint]⟩
          else
            ⟨indicatorLoop buf (loadIndicators cfg) false,
              { poOpenInfo with pabyHeader := buf }, [Event.ingest 8192]⟩ := by
  by_cases hfp : poOpenInfo.fpL = none
  · simp [OGRNASDriverIdentify, hfp]
  cases hqc : specQuickCheck poOpenInfo.pabyHeader
  · have h2 : ¬ deref (skipSpaces (skipBOM poOpenInfo)) = 60 := by
      rw [quickCheck_refines, hqc]
      simp
    simp [OGRNASDriverIdentify, hfp, h2]
  · have h2 := (quickCheck_refines poOpenInfo).2 hqc
    cases hpin : poOpenInfo.IsSingleAllowedDriver "NAS"
    · cases hing : poOpenInfo.TryToIngest 8192 with
      | none => simp [OGRNASDriverIdentify, hfp, h2, hpin, hing]
      | some buf =>
        rw [identify_deep cfg poOpenInfo buf hfp hqc hpin hing]
        simp [hfp]
    · simp [OGRNASDriverIdentify, hfp, h2, hpin]

theorem strstr_marker_ne_none (buf : List Nat) :
    ¬ strstr buf gmlMarker = none ↔ gmlMarker <:+: cstr buf := by
  rw [strstr_eq_none, cstr_gmlMarker]
  exact not_not

/-- When the sniffer accepts: a handle, a passing QuickCheck, and either the pin or a
successful ingest whose buffer holds, before its first zero byte, the marker and an
indicator, with `NAS_GFS_TEMPLATE` set. -/
theorem identify_ret_true_iff (cfg : Config) (poOpenInfo : GDALOpenInfo) :
    (OGRNASDriverIdentify cfg poOpenInfo).ret = true ↔
      poOpenInfo.fpL ≠ none ∧ specQuickCheck poOpenInfo.pabyHeader = true ∧
      (poOpenInfo.IsSingleAllowedDriver "NAS" = true ∨
        ∃ buf, poOpenInfo.TryToIngest 8192 = some buf ∧ gmlMarker <:+: cstr buf ∧
          (∃ ind ∈ loadIndicators cfg, ind <:+: cstr buf) ∧
          (cfg "NAS_GFS_TEMPLATE").isSome = true) := by
  rw [identify_eq]
  by_cases hfp : poOpenInfo.fpL = none
  · simp [hfp]
  cases hqc : specQuickCheck poOpenInfo.pabyHeader
  · simp
  cases hpin : poOpenInfo.IsSingleAllowedDriver "NAS"
  swap
  · simp [hfp]
  cases hing : poOpenInfo.TryToIngest 8192 with
  | none => simp [hfp]
  | some buf =>
    by_cases hm : strstr buf gmlMarker = none
    · have hm2 : ¬ gmlMarker <:+: cstr buf := fun h =>
        (strstr_marker_ne_none buf).2 h hm
      simp [hfp, hm, hm2]
    · have hm2 : gmlMarker <:+: cstr buf := (strstr_marker_ne_none buf).1 hm
      by_cases hl : indicatorLoop buf (loadIndicators cfg) false = true
      · have hl2 := (indicatorLoop_loadIndicators cfg buf).1 hl
        cases ht : cfg "NAS_GFS_TEMPLATE" <;> simp [hfp, hm, hm2, hl, hl2]
      · have hl2 : ¬ ∃ ind ∈ loadIndicators cfg, ind <:+: cstr buf :=
          fun h => hl ((indicatorLoop_loadIndicators cfg buf).2 h)
        simp only [not_exists, not_and] at hl2
        simp [hfp, hm, hm2, hl]
        intro x hx hocc
        exact absurd hocc (hl2 x hx)

theorem identify_ret_false_of_not_true (cfg : Config) (poOpenInfo : GDALOpenInfo)
    (h : ¬ (OGRNASDriverIdentify cfg poOpenInfo).ret = true) :
    (OGRNASDriverIdentify cfg poOpenInfo).ret = false := by
  cases hr : (OGRNASDriverIdentify cfg poOpenInfo).ret
  · rfl
  · exact absurd hr h

/-! ## The claims -/

/-- C1: a request with no stream handle, or whose header does not show `<` after an
optional UTF-8 BOM and ASCII whitespace (the spec's QuickCheck fails, as it does on the empty
header and on a header that is just the BOM), is rejected by `OGRNASDriverIdentify`, whatever
the pin, the configuration and the stream are. -/
theorem identify_rejects_without_chevron (cfg : Config) (poOpenInfo : GDALOpenInfo)
    (h : poOpenInfo.fpL = none ∨ specQuickCheck poOpenInfo.pabyHeader = false) :
    (OGRNASDriverIdentify cfg poOpenInfo).ret = false := by
  by_cases hfp : poOpenInfo.fpL = none
  · simp [OGRNASDriverIdentify, hfp]
  · have hq : specQuickCheck poOpenInfo.pabyHeader = false := h.resolve_left hfp
    have h2 : ¬ deref (skipSpaces (skipBOM poOpenInfo)) = 60 := by
      rw [quickCheck_refines, hq]
      simp
    simp [OGRNASDriverIdentify, hfp, h2]

theorem identify_rejects_without_chevron_witness :
    (specQuickCheck [] = false ∧ specQuickCheck utf8BOM = false) ∧
    (OGRNASDriverIdentify templateConfig (sampleInfo utf8BOM true (some utf8BOM))).ret = false :=
  ⟨by decide,
    identify_rejects_without_chevron templateConfig (sampleInfo utf8BOM true (some utf8BOM))
      (Or.inr (by decide))⟩

/-- C2: a request with a stream handle whose header passes QuickCheck and that is pinned to
the single allowed driver "NAS" is accepted without any ingest request and without any
diagnostic, and the open info is left as it was, whatever the buffer and the configuration
hold. -/
theorem identify_pinned_accepts (cfg : Config) (poOpenInfo : GDALOpenInfo)
    (hfp : poOpenInfo.fpL ≠ none) (hqc : specQuickCheck poOpenInfo.pabyHeader = true)
    (hpin : poOpenInfo.IsSingleAllowedDriver "NAS" = true) :
    (OGRNASDriverIdentify cfg poOpenInfo).ret = true ∧
    (OGRNASDriverIdentify cfg poOpenInfo).events = [] ∧
    (OGRNASDriverIdentify cfg poOpenInfo).info.pabyHeader = poOpenInfo.pabyHeader := by
  have h2 := (quickCheck_refines poOpenInfo).2 hqc
  simp [OGRNASDriverIdentify, hfp, h2, hpin]

theorem identify_pinned_accepts_witness :
    (¬ gmlMarker <:+: bytes "<html/>") ∧
    (OGRNASDriverIdentify noConfig
      (sampleInfo (bytes "<html/>") true (some (bytes "<html/>")))).ret = true ∧
    (OGRNASDriverIdentify noConfig
      (sampleInfo (bytes "<html/>") true (some (bytes "<html/>")))).events = [] ∧
    (OGRNASDriverIdentify noConfig
      (sampleInfo (bytes "<html/>") true (some (bytes "<html/>")))).info.pabyHeader =
      bytes "<html/>" :=
  ⟨by decide,
    identify_pinned_accepts noConfig (sampleInfo (bytes "<html/>") true (some (bytes "<html/>")))
      (by decide) (by decide) (by decide)⟩

/-- C3, amended: for a non-pinned request with a handle that passes QuickCheck, whose ingest
succeeds with a buffer of any length that holds, before its first zero byte,
"opengis.net/gml" and an indicator of the list in effect: the verdict is accept exactly when
`NAS_GFS_TEMPLATE` is set, whatever its value; when it is not set the verdict is reject and
the one diagnostic is recorded after the ingest request; when it is set no diagnostic is
recorded. -/
theorem identify_match_needs_template (cfg : Config) (poOpenInfo : GDALOpenInfo)
    (buf ind : List Nat)
    (hfp : poOpenInfo.fpL ≠ none) (hqc : specQuickCheck poOpenInfo.pabyHeader = true)
    (hpin : poOpenInfo.IsSingleAllowedDriver "NAS" = false)
    (hing : poOpenInfo.TryToIngest 8192 = some buf)
    (hmarker : gmlMarker <:+: cstr buf)
    (hind : ind ∈ loadIndicators cfg) (hocc : ind <:+: cstr buf) :
    ((OGRNASDriverIdentify cfg poOpenInfo).ret = true ↔
      (cfg "NAS_GFS_TEMPLATE").isSome = true) ∧
    (cfg "NAS_GFS_TEMPLATE" = none →
      (OGRNASDriverIdentify cfg poOpenInfo).ret = false ∧
      (OGRNASDriverIdentify cfg poOpenInfo).events =
        [Event.ingest 8192, Event.debug "NAS" templateHint]) ∧
    ((cfg "NAS_GFS_TEMPLATE").isSome = true →
      (OGRNASDriverIdentify cfg poOpenInfo).events = [Event.ingest 8192]) := by
  have hm : ¬ strstr buf gmlMarker = none := by
    rw [strstr_eq_none, cstr_gmlMarker]
    exact fun h => h hmarker
  have hloop : indicatorLoop buf (loadIndicators cfg) false = true :=
    (indicatorLoop_loadIndicators cfg buf).2 ⟨ind, hind, hocc⟩
  rw [identify_deep cfg poOpenInfo buf hfp hqc hpin hing]
  cases ht : cfg "NAS_GFS_TEMPLATE" <;> simp [hm, hloop]

theorem identify_match_needs_template_witness :
    ((OGRNASDriverIdentify templateConfig
        (sampleInfo markerAndIndicator false (some markerAndIndicator))).ret = true ∧
      (OGRNASDriverIdentify templateConfig
        (sampleInfo markerAndIndicator false (some markerAndIndicator))).events =
        [Event.ingest 8192]) ∧
    ((OGRNASDriverIdentify noConfig
        (sampleInfo markerAndIndicator false (some markerAndIndicator))).ret = false ∧
      (OGRNASDriverIdentify noConfig
        (sampleInfo markerAndIndicator false (some markerAndIndicator))).events =
        [Event.ingest 8192, Event.debug "NAS" templateHint]) :=
  ⟨⟨(identify_match_needs_template templateConfig
        (sampleInfo markerAndIndicator false (some markerAndIndicator)) markerAndIndicator
        (bytes "aaa.xsd") (by decide) (by decide) (by decide) rfl (by decide) (by decide)
        (by decide)).1.2 rfl,
      (identify_match_needs_template templateConfig
        (sampleInfo markerAndIndicator false (some markerAndIndicator)) markerAndIndicator
        (bytes "aaa.xsd") (by decide) (by decide) (by decide) rfl (by decide) (by decide)
        (by decide)).2.2 rfl⟩,
    (identify_match_needs_template noConfig
      (sampleInfo markerAndIndicator false (some markerAndIndicator)) markerAndIndicator
      (bytes "aaa.xsd") (by decide) (by decide) (by decide) rfl (by decide) (by decide)
      (by decide)).2.1 rfl⟩

/-- C3 as stated fails: the buffer `zeroThenMarker` (27 bytes) contains "opengis.net/gml"
and the default indicator "aaa.xsd", the request has a handle, passes QuickCheck, is not
pinned, its ingest succeeds and `NAS_GFS_TEMPLATE` is set, yet the verdict is reject: both
strings stand behind a zero byte, where `strstr` does not look. -/
theorem identify_match_zero_byte_counterexample :
    (sampleInfo zeroThenMarker false (some zeroThenMarker)).fpL ≠ none ∧
    specQuickCheck (sampleInfo zeroThenMarker false (some zeroThenMarker)).pabyHeader = true ∧
    (sampleInfo zeroThenMarker false (some zeroThenMarker)).IsSingleAllowedDriver "NAS"
      = false ∧
    (sampleInfo zeroThenMarker false (some zeroThenMarker)).TryToIngest 8192
      = some zeroThenMarker ∧
    zeroThenMarker.length ≤ 8192 ∧
    gmlMarker <:+: zeroThenMarker ∧
    bytes "aaa.xsd" ∈ loadIndicators templateConfig ∧
    bytes "aaa.xsd" <:+: zeroThenMarker ∧
    (templateConfig "NAS_GFS_TEMPLATE").isSome = true ∧
    (OGRNASDriverIdentify templateConfig
      (sampleInfo zeroThenMarker false (some zeroThenMarker))).ret = false := by
  decide

/-- C4: for a non-pinned request whose ingested buffer contains "opengis.net/gml" and none
of the strings of the indicator list in effect, the verdict is reject, for every
configuration, hence with `NAS_GFS_TEMPLATE` set and with it unset. -/
theorem identify_rejects_without_indicator (cfg : Config) (poOpenInfo : GDALOpenInfo)
    (buf : List Nat)
    (hpin : poOpenInfo.IsSingleAllowedDriver "NAS" = false)
    (hing : poOpenInfo.TryToIngest 8192 = some buf)
    (_hmarker : gmlMarker <:+: buf)
    (hnone : ∀ ind ∈ loadIndicators cfg, ¬ ind <:+: buf) :
    (OGRNASDriverIdentify cfg poOpenInfo).ret = false := by
  apply identify_ret_false_of_not_true
  rw [identify_ret_true_iff]
  rintro ⟨_, _, hp | ⟨b, hb, _, ⟨ind, hmem, hocc⟩, _⟩⟩
  · rw [hpin] at hp
    exact Bool.false_ne_true hp
  · rw [hing] at hb
    cases hb
    exact hnone ind hmem (infix_of_infix_cstr _ _ hocc)

theorem identify_rejects_without_indicator_witness :
    (OGRNASDriverIdentify templateConfig
      (sampleInfo markerOnly false (some markerOnly))).ret = false :=
  identify_rejects_without_indicator templateConfig
    (sampleInfo markerOnly false (some markerOnly)) markerOnly (by decide) rfl
    (by decide) (by decide)

/-- C5: for a non-pinned request whose ingested buffer does not contain "opengis.net/gml",
the verdict is reject, for every configuration: every indicator list, even one whose
indicators all occur in the buffer, and every value or absence of `NAS_GFS_TEMPLATE`. -/
theorem identify_rejects_without_marker (cfg : Config) (poOpenInfo : GDALOpenInfo)
    (buf : List Nat)
    (hpin : poOpenInfo.IsSingleAllowedDriver "NAS" = false)
    (hing : poOpenInfo.TryToIngest 8192 = some buf)
    (hmarker : ¬ gmlMarker <:+: buf) :
    (OGRNASDriverIdentify cfg poOpenInfo).ret = false := by
  apply identify_ret_false_of_not_true
  rw [identify_ret_true_iff]
  rintro ⟨_, _, hp | ⟨b, hb, hm, _⟩⟩
  · rw [hpin] at hp
    exact Bool.false_ne_true hp
  · rw [hing] at hb
    cases hb
    exact hmarker (infix_of_infix_cstr _ _ hm)

theorem identify_rejects_without_marker_witness :
    (∃ ind ∈ loadIndicators templateConfig, ind <:+: indicatorOnly) ∧
    (OGRNASDriverIdentify templateConfig
      (sampleInfo indicatorOnly false (some indicatorOnly))).ret = false :=
  ⟨⟨bytes "aaa.xsd", by decide, by decide⟩,
    identify_rejects_without_marker templateConfig
      (sampleInfo indicatorOnly false (some indicatorOnly)) indicatorOnly (by decide) rfl
      (by decide)⟩

/-- C6: for a non-pinned request, when the ingest request reports failure the verdict is
reject, a plain `FALSE`, and no diagnostic is recorded, whatever the header and the
configuration are; a request that has a handle and passes QuickCheck has then issued just
the one ingest request. -/
theorem identify_rejects_on_ingest_failure (cfg : Config) (poOpenInfo : GDALOpenInfo)
    (hpin : poOpenInfo.IsSingleAllowedDriver "NAS" = false)
    (hing : poOpenInfo.TryToIngest 8192 = none) :
    (OGRNASDriverIdentify cfg poOpenInfo).ret = false ∧
    (∀ category message,
      Event.debug category message ∉ (OGRNASDriverIdentify cfg poOpenInfo).events) ∧
    (poOpenInfo.fpL ≠ none → specQuickCheck poOpenInfo.pabyHeader = true →
      (OGRNASDriverIdentify cfg poOpenInfo).events = [Event.ingest 8192]) := by
  by_cases hfp : poOpenInfo.fpL = none
  · simp [OGRNASDriverIdentify, hfp]
  by_cases h2 : deref (skipSpaces (skipBOM poOpenInfo)) = 60
  · simp [OGRNASDriverIdentify, hfp, h2, hpin, hing]
  · have hq : ¬ specQuickCheck poOpenInfo.pabyHeader = true :=
      fun h => h2 ((quickCheck_refines poOpenInfo).2 h)
    simp [OGRNASDriverIdentify, hfp, h2, hq]

theorem identify_rejects_on_ingest_failure_witness :
    (OGRNASDriverIdentify noConfig (sampleInfo markerAndIndicator false none)).ret = false ∧
    (∀ category message, Event.debug category message ∉
      (OGRNASDriverIdentify noConfig (sampleInfo markerAndIndicator false none)).events) ∧
    ((sampleInfo markerAndIndicator false none).fpL ≠ none →
      specQuickCheck (sampleInfo markerAndIndicator false none).pabyHeader = true →
      (OGRNASDriverIdentify noConfig (sampleInfo markerAndIndicator false none)).events =
        [Event.ingest 8192]) :=
  identify_rejects_on_ingest_failure noConfig (sampleInfo markerAndIndicator false none)
    (by decide) rfl

/-- C7: on every header made of an optional UTF-8 BOM, any number of ASCII whitespace
bytes, `<` and arbitrary further bytes, the chevron test of lines 52-69 finds `<`:
`OGRNASDriverIdentify` does not reject there, so with a handle a pinned request is accepted
and a non-pinned one goes on to the ingest request. -/
theorem identify_passes_chevron_test (cfg : Config) (poOpenInfo : GDALOpenInfo)
    (bom ws rest : List Nat)
    (hbom : bom = [] ∨ bom = utf8BOM) (hws : ∀ c ∈ ws, c ∈ [32, 9, 10, 11, 12, 13])
    (hhdr : poOpenInfo.pabyHeader = bom ++ ws ++ 60 :: rest) :
    deref (skipSpaces (skipBOM poOpenInfo)) = 60 ∧
    (poOpenInfo.fpL ≠ none → poOpenInfo.IsSingleAllowedDriver "NAS" = true →
      (OGRNASDriverIdentify cfg poOpenInfo).ret = true) ∧
    (poOpenInfo.fpL ≠ none → poOpenInfo.IsSingleAllowedDriver "NAS" = false →
      (OGRNASDriverIdentify cfg poOpenInfo).events.head? = some (Event.ingest 8192)) := by
  have hqc : specQuickCheck poOpenInfo.pabyHeader = true := by
    rw [hhdr]
    exact specQuickCheck_of_form bom ws rest hbom hws
  have h2 := (quickCheck_refines poOpenInfo).2 hqc
  refine ⟨h2, ?_, ?_⟩
  · intro hfp hpin
    simp [OGRNASDriverIdentify, hfp, h2, hpin]
  · intro hfp hpin
    cases hing : poOpenInfo.TryToIngest 8192 with
    | none => simp [OGRNASDriverIdentify, hfp, h2, hpin, hing]
    | some buf =>
      rw [identify_deep cfg poOpenInfo buf hfp hqc hpin hing]
      split_ifs <;> rfl

theorem identify_passes_chevron_test_witness :
    deref (skipSpaces (skipBOM (sampleInfo bomRoot true (some bomRoot)))) = 60 ∧
    ((sampleInfo bomRoot true (some bomRoot)).fpL ≠ none →
      (sampleInfo bomRoot true (some bomRoot)).IsSingleAllowedDriver "NAS"
        = true →
      (OGRNASDriverIdentify noConfig
        (sampleInfo bomRoot true (some bomRoot))).ret = true) ∧
    ((sampleInfo bomRoot true (some bomRoot)).fpL ≠ none →
      (sampleInfo bomRoot true (some bomRoot)).IsSingleAllowedDriver "NAS"
        = false →
      (OGRNASDriverIdentify noConfig
        (sampleInfo bomRoot true (some bomRoot))).events.head?
        = some (Event.ingest 8192)) :=
  identify_passes_chevron_test noConfig (sampleInfo bomRoot true (some bomRoot))
    utf8BOM [32, 32] (bytes "root/>") (Or.inr rfl) (by decide) (by decide)

/-- C8, amended: when `NAS_INDICATOR` is the `;`-join of a list of non-empty C strings
(no zero byte) none of which holds `;`, the indicator list in effect is exactly that list,
in the same order, and a buffer in which the last of them occurs before the first zero
byte passes the indicator check of lines 89-93, whatever else it holds. -/
theorem indicators_of_join (cfg : Config) (l : List (List Nat))
    (hcfg : cfg "NAS_INDICATOR" = some (joinSemicolon l))
    (hl : ∀ s ∈ l, s ≠ [] ∧ 59 ∉ s ∧ 0 ∉ s) :
    CSLTokenizeStringComplex (some (joinSemicolon l)) (bytes ";") = l ∧
    loadIndicators cfg = l ∧
    ∀ (last buf : List Nat), l.getLast? = some last → last <:+: cstr buf →
      indicatorLoop buf (loadIndicators cfg) false = true := by
  have hz : 0 ∉ joinSemicolon l := by
    intro h0
    rcases mem_joinSemicolon l 0 h0 with h | ⟨s, hs, h⟩
    · omega
    · exact (hl s hs).2.2 h
  have hd : cstr (bytes ";") = [59] := by decide
  have htok : CSLTokenizeStringComplex (some (joinSemicolon l)) (bytes ";") = l := by
    simp only [CSLTokenizeStringComplex, hd, cstr_of_no_zero _ hz]
    exact tokenizeFrom_join l (fun s hs => ⟨(hl s hs).1, (hl s hs).2.1⟩)
  have hload : loadIndicators cfg = l := by
    simp only [loadIndicators, CPLGetConfigOption, hcfg]
    exact htok
  refine ⟨htok, hload, ?_⟩
  intro last buf hlast hocc
  rw [indicatorLoop_loadIndicators, hload]
  exact ⟨last, List.mem_of_getLast?_eq_some hlast, hocc⟩

theorem indicators_of_join_witness :
    joinSemicolon [bytes "A", bytes "B", bytes "C"] = bytes "A;B;C" ∧
    CSLTokenizeStringComplex (some (joinSemicolon [bytes "A", bytes "B", bytes "C"]))
      (bytes ";") = [bytes "A", bytes "B", bytes "C"] ∧
    loadIndicators abcConfig = [bytes "A", bytes "B", bytes "C"] ∧
    ∀ (last buf : List Nat), [bytes "A", bytes "B", bytes "C"].getLast? = some last →
      last <:+: cstr buf → indicatorLoop buf (loadIndicators abcConfig) false = true :=
  ⟨by decide,
    indicators_of_join abcConfig [bytes "A", bytes "B", bytes "C"] (by decide) (by decide)⟩

/-- C8 as stated fails: with `NAS_INDICATOR` set to `A;B;C` the tokens are `A`, `B`, `C`;
the buffer `markerZeroC` contains the marker and, of the tokens, only the last one, `C`,
yet the indicator check fails on it and the request is rejected: `C` stands behind a zero
byte, where `strstr` does not look. -/
theorem indicator_check_zero_byte_counterexample :
    loadIndicators abcConfig = [bytes "A", bytes "B", bytes "C"] ∧
    gmlMarker <:+: markerZeroC ∧
    bytes "C" <:+: markerZeroC ∧
    ¬ bytes "A" <:+: markerZeroC ∧
    ¬ bytes "B" <:+: markerZeroC ∧
    strstr markerZeroC gmlMarker ≠ none ∧
    indicatorLoop markerZeroC (loadIndicators abcConfig) false = false ∧
    (OGRNASDriverIdentify abcConfig
      (sampleInfo markerZeroC false (some markerZeroC))).ret = false := by
  decide

/-- C9: when the sniffer's verdict on a request is reject, `OGRNASDriverOpen` returns the
null pointer, leaves `fpL` as it was, and neither closes nor clears the handle nor creates
or opens a data source. -/
theorem open_not_mine_on_reject (cfg : Config) (dsOpen : String → Bool)
    (poOpenInfo : GDALOpenInfo)
    (h : (OGRNASDriverIdentify cfg poOpenInfo).ret = false) :
    (OGRNASDriverOpen cfg dsOpen poOpenInfo).ret = none ∧
    (OGRNASDriverOpen cfg dsOpen poOpenInfo).info.fpL = poOpenInfo.fpL ∧
    (∀ fp, Event.close fp ∉ (OGRNASDriverOpen cfg dsOpen poOpenInfo).events) ∧
    Event.clearHandle ∉ (OGRNASDriverOpen cfg dsOpen poOpenInfo).events ∧
    Event.newDataSource ∉ (OGRNASDriverOpen cfg dsOpen poOpenInfo).events ∧
    (∀ name, Event.dsOpen name ∉ (OGRNASDriverOpen cfg dsOpen poOpenInfo).events) := by
  by_cases hacc : poOpenInfo.eAccess = GDALAccess.GA_Update
  · simp [OGRNASDriverOpen, hacc]
  · have hfp := (identify_info cfg poOpenInfo).1
    simp only [OGRNASDriverOpen, hacc, h, if_true, if_false]
    rcases identify_events cfg poOpenInfo with he | he | he <;> simp [he, hfp]

theorem open_not_mine_on_reject_witness :
    (OGRNASDriverOpen noConfig (fun _ => true)
      (sampleInfo markerAndIndicator false (some markerAndIndicator))).ret = none ∧
    (OGRNASDriverOpen noConfig (fun _ => true)
      (sampleInfo markerAndIndicator false (some markerAndIndicator))).info.fpL =
      (sampleInfo markerAndIndicator false (some markerAndIndicator)).fpL ∧
    (∀ fp, Event.close fp ∉ (OGRNASDriverOpen noConfig (fun _ => true)
      (sampleInfo markerAndIndicator false (some markerAndIndicator))).events) ∧
    Event.clearHandle ∉ (OGRNASDriverOpen noConfig (fun _ => true)
      (sampleInfo markerAndIndicator false (some markerAndIndicator))).events ∧
    Event.newDataSource ∉ (OGRNASDriverOpen noConfig (fun _ => true)
      (sampleInfo markerAndIndicator false (some markerAndIndicator))).events ∧
    (∀ name, Event.dsOpen name ∉ (OGRNASDriverOpen noConfig (fun _ => true)
      (sampleInfo markerAndIndicator false (some markerAndIndicator))).events) :=
  open_not_mine_on_reject noConfig (fun _ => true)
    (sampleInfo markerAndIndicator false (some markerAndIndicator)) (by decide)

/-- C10: on a read-only request that the sniffer accepts, `OGRNASDriverOpen` closes the
handle the request came with (a real handle), clears `fpL`, and only then creates a data
source and opens it from `pszFilename` alone; it returns that data source when the open
succeeds and the null pointer, after deleting the data source, when it fails. -/
theorem open_constructs_on_accept (cfg : Config) (dsOpen : String → Bool)
    (poOpenInfo : GDALOpenInfo)
    (hacc : poOpenInfo.eAccess = GDALAccess.GA_ReadOnly)
    (h : (OGRNASDriverIdentify cfg poOpenInfo).ret = true) :
    poOpenInfo.fpL ≠ none ∧
    (OGRNASDriverOpen cfg dsOpen poOpenInfo).info.fpL = none ∧
    (OGRNASDriverOpen cfg dsOpen poOpenInfo).events =
      (OGRNASDriverIdentify cfg poOpenInfo).events ++
        [Event.close poOpenInfo.fpL, Event.clearHandle, Event.newDataSource,
          Event.dsOpen poOpenInfo.pszFilename] ++
        (if dsOpen poOpenInfo.pszFilename = true then [] else [Event.deleteDataSource]) ∧
    (OGRNASDriverOpen cfg dsOpen poOpenInfo).ret =
      (if dsOpen poOpenInfo.pszFilename = true then some ⟨poOpenInfo.pszFilename⟩
       else none) := by
  have hinfo := identify_info cfg poOpenInfo
  refine ⟨identify_true_handle cfg poOpenInfo h, ?_⟩
  cases hds : dsOpen poOpenInfo.pszFilename <;>
    simp [OGRNASDriverOpen, hacc, h, hinfo.1, hinfo.2, hds]

theorem open_constructs_on_accept_witness :
    ((OGRNASDriverOpen templateConfig (fun _ => true)
        (sampleInfo markerAndIndicator false (some markerAndIndicator))).info.fpL = none ∧
      (OGRNASDriverOpen templateConfig (fun _ => true)
        (sampleInfo markerAndIndicator false (some markerAndIndicator))).events =
        [Event.ingest 8192, Event.close (some 1), Event.clearHandle, Event.newDataSource,
          Event.dsOpen "alkis.xml"] ∧
      (OGRNASDriverOpen templateConfig (fun _ => true)
        (sampleInfo markerAndIndicator false (some markerAndIndicator))).ret =
        some ⟨"alkis.xml"⟩) ∧
    ((OGRNASDriverOpen templateConfig (fun _ => false)
        (sampleInfo markerAndIndicator false (some markerAndIndicator))).events =
        [Event.ingest 8192, Event.close (some 1), Event.clearHandle, Event.newDataSource,
          Event.dsOpen "alkis.xml", Event.deleteDataSource] ∧
      (OGRNASDriverOpen templateConfig (fun _ => false)
        (sampleInfo markerAndIndicator false (some markerAndIndicator))).ret = none) :=
  ⟨(open_constructs_on_accept templateConfig (fun _ => true)
      (sampleInfo markerAndIndicator false (some markerAndIndicator)) rfl (by decide)).2,
    (open_constructs_on_accept templateConfig (fun _ => false)
      (sampleInfo markerAndIndicator false (some markerAndIndicator)) rfl (by decide)).2.2⟩

/-- C11, amended: on a read-only request that the sniffer accepts and whose data source
fails to open, `OGRNASDriverOpen` deletes the data source and returns the null pointer,
which is also what it returns on every request the sniffer rejects; the failed attempt
shows only in its effects: the handle was closed and `fpL` is null afterwards. -/
theorem open_failure_returns_null (cfg : Config) (dsOpen : String → Bool)
    (poOpenInfo : GDALOpenInfo)
    (hacc : poOpenInfo.eAccess = GDALAccess.GA_ReadOnly)
    (h : (OGRNASDriverIdentify cfg poOpenInfo).ret = true)
    (hds : dsOpen poOpenInfo.pszFilename = false) :
    (OGRNASDriverOpen cfg dsOpen poOpenInfo).ret = none ∧
    (∀ other : GDALOpenInfo, (OGRNASDriverIdentify cfg other).ret = false →
      (OGRNASDriverOpen cfg dsOpen other).ret =
        (OGRNASDriverOpen cfg dsOpen poOpenInfo).ret) ∧
    poOpenInfo.fpL ≠ none ∧
    (OGRNASDriverOpen cfg dsOpen poOpenInfo).info.fpL = none ∧
    (OGRNASDriverOpen cfg dsOpen poOpenInfo).events =
      (OGRNASDriverIdentify cfg poOpenInfo).events ++
        [Event.close poOpenInfo.fpL, Event.clearHandle, Event.newDataSource,
          Event.dsOpen poOpenInfo.pszFilename, Event.deleteDataSource] := by
  have hinfo := identify_info cfg poOpenInfo
  have hret : (OGRNASDriverOpen cfg dsOpen poOpenInfo).ret = none := by
    simp [OGRNASDriverOpen, hacc, h, hinfo.2, hds]
  refine ⟨hret, ?_, identify_true_handle cfg poOpenInfo h, ?_, ?_⟩
  · intro other hother
    rw [hret]
    by_cases ho : other.eAccess = GDALAccess.GA_Update
    · simp [OGRNASDriverOpen, ho]
    · simp [OGRNASDriverOpen, ho, hother]
  · simp [OGRNASDriverOpen, hacc, h, hinfo.2, hds]
  · simp [OGRNASDriverOpen, hacc, h, hinfo.1, hinfo.2, hds]

theorem open_failure_returns_null_witness :
    (OGRNASDriverOpen templateConfig (fun _ => false)
      (sampleInfo markerAndIndicator false (some markerAndIndicator))).ret = none ∧
    (OGRNASDriverOpen templateConfig (fun _ => false)
      (sampleInfo markerAndIndicator false (some markerAndIndicator))).info.fpL = none ∧
    (OGRNASDriverOpen templateConfig (fun _ => false)
      (sampleInfo markerAndIndicator false (some markerAndIndicator))).events =
      [Event.ingest 8192, Event.close (some 1), Event.clearHandle, Event.newDataSource,
        Event.dsOpen "alkis.xml", Event.deleteDataSource] :=
  ⟨(open_failure_returns_null templateConfig (fun _ => false)
      (sampleInfo markerAndIndicator false (some markerAndIndicator)) rfl (by decide) rfl).1,
    (open_failure_returns_null templateConfig (fun _ => false)
      (sampleInfo markerAndIndicator false (some markerAndIndicator)) rfl (by decide)
      rfl).2.2.2⟩

/-- C11 as stated fails: the sniffer accepts `markerAndIndicator` and rejects `markerOnly`;
when the data source fails to open, `OGRNASDriverOpen` returns the same value, the null
pointer, on both requests. -/
theorem open_failure_indistinguishable_counterexample :
    (OGRNASDriverIdentify templateConfig
      (sampleInfo markerAndIndicator false (some markerAndIndicator))).ret = true ∧
    (OGRNASDriverIdentify templateConfig
      (sampleInfo markerOnly false (some markerOnly))).ret = false ∧
    (OGRNASDriverOpen templateConfig (fun _ => false)
      (sampleInfo markerAndIndicator false (some markerAndIndicator))).ret =
    (OGRNASDriverOpen templateConfig (fun _ => false)
      (sampleInfo markerOnly false (some markerOnly))).ret := by
  decide

/-- C15: one call of `OGRNASDriverIdentify` issues at most one ingest request, every
request it issues asks for 8192 bytes, and it issues none when the handle is missing, when
QuickCheck rejects, or when the request is pinned to this driver. -/
theorem identify_ingests_at_most_once (cfg : Config) (poOpenInfo : GDALOpenInfo) :
    ((OGRNASDriverIdentify cfg poOpenInfo).events.filter Event.isIngest).length ≤ 1 ∧
    (∀ nBytes, Event.ingest nBytes ∈ (OGRNASDriverIdentify cfg poOpenInfo).events →
      nBytes = 8192) ∧
    (poOpenInfo.fpL = none ∨ specQuickCheck poOpenInfo.pabyHeader = false ∨
        poOpenInfo.IsSingleAllowedDriver "NAS" = true →
      (OGRNASDriverIdentify cfg poOpenInfo).events.filter Event.isIngest = []) := by
  refine ⟨?_, ?_, ?_⟩
  · rcases identify_events cfg poOpenInfo with he | he | he <;>
      simp [he, Event.isIngest]
  · intro nBytes hmem
    rcases identify_events cfg poOpenInfo with he | he | he <;>
      simp [he] at hmem
    · exact hmem
    · exact hmem
  · intro hcase
    rw [identify_eq]
    by_cases h1 : poOpenInfo.fpL = none ∨ specQuickCheck poOpenInfo.pabyHeader = false
    · simp [h1]
    · have hpin : poOpenInfo.IsSingleAllowedDriver "NAS" = true := by
        rcases hcase with h | h | h
        · exact absurd (Or.inl h) h1
        · exact absurd (Or.inr h) h1
        · exact h
      simp [h1, hpin]

theorem identify_ingests_at_most_once_witness :
    ((OGRNASDriverIdentify noConfig
        (sampleInfo markerAndIndicator false (some markerAndIndicator))).events.filter
        Event.isIngest = [Event.ingest 8192]) ∧
    ((OGRNASDriverIdentify noConfig
        (sampleInfo markerAndIndicator true (some markerAndIndicator))).events.filter
        Event.isIngest = []) :=
  ⟨by decide,
    (identify_ingests_at_most_once noConfig
      (sampleInfo markerAndIndicator true (some markerAndIndicator))).2.2
      (Or.inr (Or.inr (by decide)))⟩

/-- C16, amended: `OGRNASDriverIdentify` records a diagnostic if and only if the request
has a handle, passes QuickCheck, is not pinned, the ingest succeeds, the buffer holds
"opengis.net/gml" before its first zero byte, some indicator occurs in the buffer before
its first zero byte, and `NAS_GFS_TEMPLATE` is not set; a call records at most one
diagnostic. -/
theorem identify_diagnostic_iff (cfg : Config) (poOpenInfo : GDALOpenInfo) :
    ((∃ category message,
        Event.debug category message ∈ (OGRNASDriverIdentify cfg poOpenInfo).events) ↔
      (poOpenInfo.fpL ≠ none ∧ specQuickCheck poOpenInfo.pabyHeader = true ∧
        poOpenInfo.IsSingleAllowedDriver "NAS" = false ∧
        ∃ buf, poOpenInfo.TryToIngest 8192 = some buf ∧ gmlMarker <:+: cstr buf ∧
          (∃ ind ∈ loadIndicators cfg, ind <:+: cstr buf) ∧
          cfg "NAS_GFS_TEMPLATE" = none)) ∧
    ((OGRNASDriverIdentify cfg poOpenInfo).events.filter Event.isDiagnostic).length ≤ 1 := by
  refine ⟨?_, ?_⟩
  · rw [identify_eq]
    by_cases hfp : poOpenInfo.fpL = none
    · simp [hfp]
    cases hqc : specQuickCheck poOpenInfo.pabyHeader
    · simp
    cases hpin : poOpenInfo.IsSingleAllowedDriver "NAS"
    swap
    · simp [hfp]
    cases hing : poOpenInfo.TryToIngest 8192 with
    | none => simp [hfp]
    | some buf =>
      by_cases hm : strstr buf gmlMarker = none
      · have hm2 : ¬ gmlMarker <:+: cstr buf := fun h =>
          (strstr_marker_ne_none buf).2 h hm
        simp [hfp, hm, hm2]
      · have hm2 : gmlMarker <:+: cstr buf := (strstr_marker_ne_none buf).1 hm
        by_cases hl : indicatorLoop buf (loadIndicators cfg) false = true
        · have hl2 := (indicatorLoop_loadIndicators cfg buf).1 hl
          cases ht : cfg "NAS_GFS_TEMPLATE" <;> simp [hfp, hm, hm2, hl, hl2]
        · have hl2 : ¬ ∃ ind ∈ loadIndicators cfg, ind <:+: cstr buf :=
            fun h => hl ((indicatorLoop_loadIndicators cfg buf).2 h)
          simp only [not_exists, not_and] at hl2
          simp [hfp, hm, hm2, hl]
          intro x hx hocc
          exact absurd hocc (hl2 x hx)
  · rcases identify_events cfg poOpenInfo with he | he | he <;>
      simp [he, Event.isDiagnostic]

/-- C16 as stated fails: the request on `zeroThenMarker` has a handle, passes QuickCheck,
is not pinned, its ingest succeeds, the buffer contains "opengis.net/gml" and the default
indicator "aaa.xsd", `NAS_GFS_TEMPLATE` is not set, and no diagnostic is recorded: both
strings stand behind a zero byte. -/
theorem identify_diagnostic_zero_byte_counterexample :
    (sampleInfo zeroThenMarker false (some zeroThenMarker)).fpL ≠ none ∧
    specQuickCheck (sampleInfo zeroThenMarker false (some zeroThenMarker)).pabyHeader = true ∧
    (sampleInfo zeroThenMarker false (some zeroThenMarker)).IsSingleAllowedDriver "NAS"
      = false ∧
    (sampleInfo zeroThenMarker false (some zeroThenMarker)).TryToIngest 8192
      = some zeroThenMarker ∧
    gmlMarker <:+: zeroThenMarker ∧
    bytes "aaa.xsd" ∈ loadIndicators noConfig ∧
    bytes "aaa.xsd" <:+: zeroThenMarker ∧
    noConfig "NAS_GFS_TEMPLATE" = none ∧
    (OGRNASDriverIdentify noConfig
      (sampleInfo zeroThenMarker false (some zeroThenMarker))).events =
      [Event.ingest 8192] := by
  decide

/-- C20: on a request in update mode `OGRNASDriverOpen` returns the null pointer without
calling the sniffer: no call leaves the function (no ingest request, no diagnostic, no
close, no data source) and the open info, handle and header included, is as before. -/
theorem open_update_not_mine (cfg : Config) (dsOpen : String → Bool)
    (poOpenInfo : GDALOpenInfo) (hacc : poOpenInfo.eAccess = GDALAccess.GA_Update) :
    (OGRNASDriverOpen cfg dsOpen poOpenInfo).ret = none ∧
    (OGRNASDriverOpen cfg dsOpen poOpenInfo).events = [] ∧
    (OGRNASDriverOpen cfg dsOpen poOpenInfo).info.fpL = poOpenInfo.fpL ∧
    (OGRNASDriverOpen cfg dsOpen poOpenInfo).info.pabyHeader = poOpenInfo.pabyHeader := by
  simp [OGRNASDriverOpen, hacc]

theorem open_update_not_mine_witness :
    (OGRNASDriverIdentify templateConfig updateInfo).ret = true ∧
    (OGRNASDriverOpen templateConfig (fun _ => true) updateInfo).ret = none ∧
    (OGRNASDriverOpen templateConfig (fun _ => true) updateInfo).events = [] ∧
    (OGRNASDriverOpen templateConfig (fun _ => true) updateInfo).info.fpL = updateInfo.fpL ∧
    (OGRNASDriverOpen templateConfig (fun _ => true) updateInfo).info.pabyHeader =
      updateInfo.pabyHeader :=
  ⟨by decide, open_update_not_mine templateConfig (fun _ => true) updateInfo rfl⟩

/-- The configuration enters the sniffer only through the outcome of the indicator loop
and the presence of `NAS_GFS_TEMPLATE`. -/
theorem identify_congr (cfg1 cfg2 : Config) (poOpenInfo : GDALOpenInfo)
    (hloop : ∀ buf, indicatorLoop buf (loadIndicators cfg1) false =
      indicatorLoop buf (loadIndicators cfg2) false)
    (htmpl : cfg1 "NAS_GFS_TEMPLATE" = cfg2 "NAS_GFS_TEMPLATE") :
    OGRNASDriverIdentify cfg1 poOpenInfo = OGRNASDriverIdentify cfg2 poOpenInfo := by
  rw [identify_eq, identify_eq]
  simp only [hloop, htmpl]

theorem indicatorLoop_perm (buf : List Nat) (l1 l2 : List (List Nat)) (h : l1.Perm l2) :
    indicatorLoop buf l1 false = indicatorLoop buf l2 false := by
  rw [Bool.eq_iff_iff, indicatorLoop_false, indicatorLoop_false]
  constructor
  · rintro ⟨ind, hmem, hocc⟩
    exact ⟨ind, h.mem_iff.1 hmem, hocc⟩
  · rintro ⟨ind, hmem, hocc⟩
    exact ⟨ind, h.mem_iff.2 hmem, hocc⟩

/-- C14, amended: when the indicator lists of two configurations are permutations of each
other and `NAS_GFS_TEMPLATE` is set in both or in neither, the indicator loop has the same
outcome on every buffer and `OGRNASDriverIdentify` gives the same result on every request:
the same verdict, the same events (the diagnostic among them) and the same open info;
because, for either list, the indicator check is true exactly when some indicator of the
list occurs in the buffer before its first zero byte. -/
theorem identify_indicator_order (cfg1 cfg2 : Config) (poOpenInfo : GDALOpenInfo)
    (hperm : (loadIndicators cfg1).Perm (loadIndicators cfg2))
    (htmpl : (cfg1 "NAS_GFS_TEMPLATE").isSome = (cfg2 "NAS_GFS_TEMPLATE").isSome) :
    (∀ buf, indicatorLoop buf (loadIndicators cfg1) false =
      indicatorLoop buf (loadIndicators cfg2) false) ∧
    (OGRNASDriverIdentify cfg1 poOpenInfo).ret = (OGRNASDriverIdentify cfg2 poOpenInfo).ret ∧
    (OGRNASDriverIdentify cfg1 poOpenInfo).events =
      (OGRNASDriverIdentify cfg2 poOpenInfo).events ∧
    (OGRNASDriverIdentify cfg1 poOpenInfo).info.pabyHeader =
      (OGRNASDriverIdentify cfg2 poOpenInfo).info.pabyHeader ∧
    (∀ buf, indicatorLoop buf (loadIndicators cfg1) false = true ↔
      ∃ ind ∈ loadIndicators cfg1, ind <:+: cstr buf) ∧
    (∀ buf, indicatorLoop buf (loadIndicators cfg2) false = true ↔
      ∃ ind ∈ loadIndicators cfg2, ind <:+: cstr buf) := by
  have hloop := fun buf => indicatorLoop_perm buf _ _ hperm
  have ht : cfg1 "NAS_GFS_TEMPLATE" = none ↔ cfg2 "NAS_GFS_TEMPLATE" = none := by
    cases h1 : cfg1 "NAS_GFS_TEMPLATE" <;> cases h2 : cfg2 "NAS_GFS_TEMPLATE" <;>
      simp [h1, h2] at htmpl ⊢
  have hmain :
      (OGRNASDriverIdentify cfg1 poOpenInfo).ret =
        (OGRNASDriverIdentify cfg2 poOpenInfo).ret ∧
      (OGRNASDriverIdentify cfg1 poOpenInfo).events =
        (OGRNASDriverIdentify cfg2 poOpenInfo).events ∧
      (OGRNASDriverIdentify cfg1 poOpenInfo).info.pabyHeader =
        (OGRNASDriverIdentify cfg2 poOpenInfo).info.pabyHeader := by
    rw [identify_eq, identify_eq]
    simp only [hloop, ht, and_self]
  exact ⟨hloop, hmain.1, hmain.2.1, hmain.2.2,
    fun buf => indicatorLoop_loadIndicators cfg1 buf,
    fun buf => indicatorLoop_loadIndicators cfg2 buf⟩

theorem identify_indicator_order_witness :
    loadIndicators abcConfig = [bytes "A", bytes "B", bytes "C"] ∧
    loadIndicators cbaConfig = [bytes "C", bytes "B", bytes "A"] ∧
    (OGRNASDriverIdentify abcConfig (sampleInfo markerAndC false (some markerAndC))).ret =
      (OGRNASDriverIdentify cbaConfig (sampleInfo markerAndC false (some markerAndC))).ret ∧
    (OGRNASDriverIdentify abcConfig (sampleInfo markerAndC false (some markerAndC))).events =
      (OGRNASDriverIdentify cbaConfig
        (sampleInfo markerAndC false (some markerAndC))).events ∧
    (indicatorLoop markerAndC (loadIndicators cbaConfig) false = true ↔
      ∃ ind ∈ loadIndicators cbaConfig, ind <:+: cstr markerAndC) ∧
    (indicatorLoop markerZeroC (loadIndicators cbaConfig) false = true ↔
      ∃ ind ∈ loadIndicators cbaConfig, ind <:+: cstr markerZeroC) :=
  ⟨by decide, by decide,
    (identify_indicator_order abcConfig cbaConfig
      (sampleInfo markerAndC false (some markerAndC))
      (by
        have h1 : loadIndicators abcConfig = [bytes "A", bytes "B", bytes "C"] := by decide
        have h2 : loadIndicators cbaConfig = [bytes "C", bytes "B", bytes "A"] := by decide
        rw [h1, h2]
        exact (List.reverse_perm [bytes "C", bytes "B", bytes "A"]))
      (by decide)).2.1,
    (identify_indicator_order abcConfig cbaConfig
      (sampleInfo markerAndC false (some markerAndC))
      (by
        have h1 : loadIndicators abcConfig = [bytes "A", bytes "B", bytes "C"] := by decide
        have h2 : loadIndicators cbaConfig = [bytes "C", bytes "B", bytes "A"] := by decide
        rw [h1, h2]
        exact (List.reverse_perm [bytes "C", bytes "B", bytes "A"]))
      (by decide)).2.2.1,
    (identify_indicator_order abcConfig cbaConfig
      (sampleInfo markerAndC false (some markerAndC))
      (by
        have h1 : loadIndicators abcConfig = [bytes "A", bytes "B", bytes "C"] := by decide
        have h2 : loadIndicators cbaConfig = [bytes "C", bytes "B", bytes "A"] := by decide
        rw [h1, h2]
        exact (List.reverse_perm [bytes "C", bytes "B", bytes "A"]))
      (by decide)).2.2.2.2.2 markerAndC,
    (identify_indicator_order abcConfig cbaConfig
      (sampleInfo markerAndC false (some markerAndC))
      (by
        have h1 : loadIndicators abcConfig = [bytes "A", bytes "B", bytes "C"] := by decide
        have h2 : loadIndicators cbaConfig = [bytes "C", bytes "B", bytes "A"] := by decide
        rw [h1, h2]
        exact (List.reverse_perm [bytes "C", bytes "B", bytes "A"]))
      (by decide)).2.2.2.2.2 markerZeroC⟩

/-- C14 as stated fails in its last part: with the indicator list `C`, `B`, `A` the
indicator `C` is a substring of the buffer `markerZeroC`, yet the indicator check is false
on that buffer, so the check is not true exactly when some indicator of the list is a
substring of the buffer: `C` stands behind a zero byte, where `strstr` does not look. -/
theorem indicator_substring_zero_byte_counterexample :
    loadIndicators cbaConfig = [bytes "C", bytes "B", bytes "A"] ∧
    bytes "C" ∈ loadIndicators cbaConfig ∧
    bytes "C" <:+: markerZeroC ∧
    indicatorLoop markerZeroC (loadIndicators cbaConfig) false = false ∧
    ¬ (indicatorLoop markerZeroC (loadIndicators cbaConfig) false = true ↔
      ∃ ind ∈ loadIndicators cbaConfig, ind <:+: markerZeroC) := by
  decide

/-! ## Zero bytes and empty tokens -/

theorem cstr_cons_of_ne_zero (c : Nat) (v : List Nat) (hc : c ≠ 0) :
    cstr (c :: v) = c :: cstr v := by
  simp [cstr, List.takeWhile_cons, hc]

theorem cstr_zero_cons (v : List Nat) : cstr (0 :: v) = [] := by
  simp [cstr, List.takeWhile_cons]

theorem cstr_append_of_zero_mem (x y : List Nat) (h : 0 ∈ x) : cstr (x ++ y) = cstr x := by
  induction x with
  | nil => simp at h
  | cons c cs ih =>
    by_cases hc : c = 0
    · subst hc
      simp [cstr_zero_cons]
    · have hmem : 0 ∈ cs := by
        rcases List.mem_cons.1 h with h0 | h0
        · exact absurd h0.symm hc
        · exact h0
      rw [List.cons_append, cstr_cons_of_ne_zero _ _ hc, cstr_cons_of_ne_zero _ _ hc, ih hmem]

theorem cstr_append_of_no_zero (x y : List Nat) (h : 0 ∉ x) :
    cstr (x ++ y) = x ++ cstr y := by
  induction x with
  | nil => rfl
  | cons c cs ih =>
    have hc : c ≠ 0 := fun h0 => h (h0 ▸ List.mem_cons_self _ _)
    have hcs : 0 ∉ cs := fun h0 => h (List.mem_cons_of_mem _ h0)
    rw [List.cons_append, cstr_cons_of_ne_zero _ _ hc, ih hcs, List.cons_append]

theorem cstr_cstr (p : List Nat) : cstr (cstr p) = cstr p :=
  cstr_of_no_zero _ (cstr_no_zero p)

/-- Cutting a buffer at one of its zero bytes leaves its C string in the front part. -/
theorem cstr_of_split (pre post : List Nat) : cstr (pre ++ 0 :: post) = cstr pre := by
  by_cases h : 0 ∈ pre
  · exact cstr_append_of_zero_mem pre _ h
  · rw [cstr_append_of_no_zero pre _ h, cstr_zero_cons, List.append_nil,
      cstr_of_no_zero pre h]

theorem tokenizeFrom_ne_nil (d : List Nat) (s : List Nat) :
    ∀ (tok t : List Nat), t ∈ tokenizeFrom d s tok → t ≠ [] := by
  induction s with
  | nil =>
    intro tok t ht
    cases tok with
    | nil => simp [tokenizeFrom] at ht
    | cons x xs =>
      simp only [tokenizeFrom, List.isEmpty_cons, Bool.false_eq_true, if_false,
        List.mem_singleton] at ht
      subst ht
      simp
  | cons x xs ih =>
    intro tok t ht
    by_cases hx : x ∈ d
    · cases tok with
      | nil =>
        simp only [tokenizeFrom, hx, if_true, List.isEmpty_nil] at ht
        exact ih [] t ht
      | cons y ys =>
        simp only [tokenizeFrom, hx, if_true, List.isEmpty_cons, Bool.false_eq_true, if_false,
          List.mem_cons] at ht
        rcases ht with rfl | ht
        · simp
        · exact ih [] t ht
    · simp only [tokenizeFrom, hx, if_false] at ht
      exact ih (tok ++ [x]) t ht

theorem tokenizeFrom_all_semicolon (s : List Nat) (h : ∀ c ∈ s, c = 59) :
    tokenizeFrom [59] s [] = [] := by
  induction s with
  | nil => rfl
  | cons c cs ih =>
    have hc : c = 59 := h c (List.mem_cons_self _ _)
    subst hc
    simpa [tokenizeFrom] using ih (fun c hc => h c (List.mem_cons_of_mem _ hc))

theorem tokenizeFrom_trailing (s : List Nat) :
    ∀ tok : List Nat, tokenizeFrom [59] (s ++ [59]) tok = tokenizeFrom [59] s tok := by
  induction s with
  | nil =>
    intro tok
    cases tok <;> simp [tokenizeFrom]
  | cons c cs ih =>
    intro tok
    by_cases hc : c = 59
    · subst hc
      cases tok <;> simp [tokenizeFrom, ih]
    · simp [tokenizeFrom, hc, ih]

theorem tokenizeFrom_doubled (a b : List Nat) :
    ∀ tok : List Nat,
      tokenizeFrom [59] (a ++ 59 :: 59 :: b) tok = tokenizeFrom [59] (a ++ 59 :: b) tok := by
  induction a with
  | nil =>
    intro tok
    cases tok <;> simp [tokenizeFrom]
  | cons c cs ih =>
    intro tok
    by_cases hc : c = 59
    · subst hc
      cases tok <;> simp [tokenizeFrom, ih]
    · simp [tokenizeFrom, hc, ih]

theorem cstr_semicolon : cstr (bytes ";") = [59] := by decide

/-- A `;` put in front of the string, behind it, or next to another `;` leaves the tokens
as they are. -/
theorem tokens_extra_semicolon (v v2 : List Nat)
    (h : v2 = 59 :: v ∨ v2 = v ++ [59] ∨ ∃ a b, v = a ++ 59 :: b ∧ v2 = a ++ 59 :: 59 :: b) :
    CSLTokenizeStringComplex (some v2) (bytes ";") =
      CSLTokenizeStringComplex (some v) (bytes ";") := by
  simp only [CSLTokenizeStringComplex, cstr_semicolon]
  rcases h with rfl | rfl | ⟨a, b, rfl, rfl⟩
  · rw [cstr_cons_of_ne_zero 59 v (by decide)]
    simp [tokenizeFrom]
  · by_cases h0 : 0 ∈ v
    · rw [cstr_append_of_zero_mem v _ h0]
    · rw [cstr_append_of_no_zero v _ h0, cstr_of_no_zero v h0]
      have : cstr [59] = [59] := by decide
      rw [this, tokenizeFrom_trailing]
  · by_cases h0 : 0 ∈ a
    · rw [cstr_append_of_zero_mem a _ h0, cstr_append_of_zero_mem a _ h0]
    · rw [cstr_append_of_no_zero a _ h0, cstr_append_of_no_zero a _ h0,
        cstr_cons_of_ne_zero 59 _ (by decide), cstr_cons_of_ne_zero 59 _ (by decide),
        tokenizeFrom_doubled]

theorem tokens_extra_semicolons (v v2 : List Nat)
    (h : Relation.ReflTransGen ExtraSemicolon v v2) :
    CSLTokenizeStringComplex (some v2) (bytes ";") =
      CSLTokenizeStringComplex (some v) (bytes ";") := by
  induction h with
  | refl => rfl
  | tail _ hstep ih => exact (tokens_extra_semicolon _ _ hstep).trans ih

theorem loadIndicators_of_set (cfg : Config) (v : List Nat)
    (hcfg : cfg "NAS_INDICATOR" = some v) :
    loadIndicators cfg = CSLTokenizeStringComplex (some v) (bytes ";") := by
  simp [loadIndicators, CPLGetConfigOption, hcfg]

/-- C18: no token of the indicator list is empty.  When `NAS_INDICATOR` is the empty
string or holds only `;`, the list is empty and a non-pinned request is rejected without a
diagnostic, whatever the buffer holds and whether or not `NAS_GFS_TEMPLATE` is set.  When
the `NAS_INDICATOR` of a second configuration is that of the first with any number of `;`
added, each in front, behind, or next to another `;`, both have the same indicator list and
the sniffer gives the same verdict and the same events. -/
theorem indicators_drop_empty_tokens (cfg : Config) (poOpenInfo : GDALOpenInfo)
    (v : List Nat) (hcfg : cfg "NAS_INDICATOR" = some v) :
    (∀ t ∈ loadIndicators cfg, t ≠ []) ∧
    ((∀ c ∈ v, c = 59) → poOpenInfo.IsSingleAllowedDriver "NAS" = false →
      loadIndicators cfg = [] ∧
      (OGRNASDriverIdentify cfg poOpenInfo).ret = false ∧
      (OGRNASDriverIdentify cfg poOpenInfo).events.filter Event.isDiagnostic = []) ∧
    (∀ (cfg2 : Config) (v2 : List Nat), cfg2 "NAS_INDICATOR" = some v2 →
      (cfg2 "NAS_GFS_TEMPLATE").isSome = (cfg "NAS_GFS_TEMPLATE").isSome →
      Relation.ReflTransGen ExtraSemicolon v v2 →
      loadIndicators cfg2 = loadIndicators cfg ∧
      (OGRNASDriverIdentify cfg2 poOpenInfo).ret = (OGRNASDriverIdentify cfg poOpenInfo).ret ∧
      (OGRNASDriverIdentify cfg2 poOpenInfo).events =
        (OGRNASDriverIdentify cfg poOpenInfo).events) := by
  have hload := loadIndicators_of_set cfg v hcfg
  refine ⟨?_, ?_, ?_⟩
  · intro t ht
    rw [hload] at ht
    exact tokenizeFrom_ne_nil _ _ _ _ ht
  · intro hsemi hpin
    have hnil : loadIndicators cfg = [] := by
      rw [hload]
      simp only [CSLTokenizeStringComplex, cstr_semicolon]
      exact tokenizeFrom_all_semicolon _
        (fun c hc => hsemi c ((cstr_initial v).subset hc))
    have hret : ¬ (OGRNASDriverIdentify cfg poOpenInfo).ret = true := by
      rw [identify_ret_true_iff, hnil]
      rintro ⟨_, _, hp | ⟨b, _, _, ⟨ind, hmem, _⟩, _⟩⟩
      · rw [hpin] at hp
        exact Bool.false_ne_true hp
      · simp at hmem
    refine ⟨hnil, identify_ret_false_of_not_true _ _ hret, ?_⟩
    rw [identify_eq]
    by_cases h1 : poOpenInfo.fpL = none ∨ specQuickCheck poOpenInfo.pabyHeader = false
    · simp [h1]
    · cases hing : poOpenInfo.TryToIngest 8192 with
      | none => simp [h1, hpin, Event.isDiagnostic]
      | some buf =>
        have hloop : indicatorLoop buf [] false = false := rfl
        simp only [h1, hpin, hnil, hloop]
        split_ifs <;> simp_all [Event.isDiagnostic]
  · intro cfg2 v2 hcfg2 htmpl hv2
    have hsame : loadIndicators cfg2 = loadIndicators cfg := by
      rw [loadIndicators_of_set cfg2 v2 hcfg2, hload]
      exact tokens_extra_semicolons v v2 hv2
    have ht : cfg2 "NAS_GFS_TEMPLATE" = none ↔ cfg "NAS_GFS_TEMPLATE" = none := by
      cases h1 : cfg "NAS_GFS_TEMPLATE" <;> cases h2 : cfg2 "NAS_GFS_TEMPLATE" <;>
        simp [h1, h2] at htmpl ⊢
    refine ⟨hsame, ?_⟩
    rw [identify_eq, identify_eq]
    simp only [hsame, ht, and_self]

theorem indicators_drop_empty_tokens_witness :
    (loadIndicators semicolonConfig = [] ∧
      (OGRNASDriverIdentify semicolonConfig
        (sampleInfo markerAndIndicator false (some markerAndIndicator))).ret = false ∧
      (OGRNASDriverIdentify semicolonConfig
        (sampleInfo markerAndIndicator false (some markerAndIndicator))).events.filter
        Event.isDiagnostic = []) ∧
    (loadIndicators paddedConfig = loadIndicators abcConfig ∧
      (OGRNASDriverIdentify paddedConfig
        (sampleInfo markerAndC false (some markerAndC))).ret =
      (OGRNASDriverIdentify abcConfig (sampleInfo markerAndC false (some markerAndC))).ret ∧
      (OGRNASDriverIdentify paddedConfig
        (sampleInfo markerAndC false (some markerAndC))).events =
      (OGRNASDriverIdentify abcConfig
        (sampleInfo markerAndC false (some markerAndC))).events) :=
  ⟨(indicators_drop_empty_tokens semicolonConfig
      (sampleInfo markerAndIndicator false (some markerAndIndicator)) (bytes ";;")
      rfl).2.1 (by decide) (by decide),
    (indicators_drop_empty_tokens abcConfig (sampleInfo markerAndC false (some markerAndC))
      (bytes "A;B;C") rfl).2.2 paddedConfig (bytes ";;A;;B;C;") rfl (by decide)
      (by
        have s1 : ExtraSemicolon (bytes "A;B;C") (bytes ";A;B;C") := Or.inl (by decide)
        have s2 : ExtraSemicolon (bytes ";A;B;C") (bytes ";;A;B;C") := Or.inl (by decide)
        have s3 : ExtraSemicolon (bytes ";;A;B;C") (bytes ";;A;;B;C") :=
          Or.inr (Or.inr ⟨bytes ";;A", bytes "B;C", by decide, by decide⟩)
        have s4 : ExtraSemicolon (bytes ";;A;;B;C") (bytes ";;A;;B;C;") :=
          Or.inr (Or.inl (by decide))
        exact (((Relation.ReflTransGen.single s1).tail s2).tail s3).tail s4)⟩

/-- C19: for a non-pinned request whose ingest succeeds, a buffer cut at one of its zero
bytes whose front part holds no "opengis.net/gml", or none of the indicators, is rejected,
with `NAS_GFS_TEMPLATE` set or not; and the sniffer gives the same verdict and the same
events when the stream delivers only the bytes before the first zero byte. -/
theorem identify_stops_at_zero_byte (cfg : Config) (poOpenInfo : GDALOpenInfo)
    (buf : List Nat)
    (hpin : poOpenInfo.IsSingleAllowedDriver "NAS" = false)
    (hing : poOpenInfo.TryToIngest 8192 = some buf) :
    (∀ pre post, buf = pre ++ 0 :: post →
      (¬ gmlMarker <:+: pre ∨ ∀ ind ∈ loadIndicators cfg, ¬ ind <:+: pre) →
      (OGRNASDriverIdentify cfg poOpenInfo).ret = false) ∧
    (OGRNASDriverIdentify cfg
        { poOpenInfo with TryToIngest := fun _ => some (cstr buf) }).ret =
      (OGRNASDriverIdentify cfg poOpenInfo).ret ∧
    (OGRNASDriverIdentify cfg
        { poOpenInfo with TryToIngest := fun _ => some (cstr buf) }).events =
      (OGRNASDriverIdentify cfg poOpenInfo).events := by
  refine ⟨?_, ?_⟩
  · intro pre post hbuf hmiss
    apply identify_ret_false_of_not_true
    rw [identify_ret_true_iff]
    rintro ⟨_, _, hp | ⟨b, hb, hm, ⟨ind, hmem, hocc⟩, _⟩⟩
    · rw [hpin] at hp
      exact Bool.false_ne_true hp
    · rw [hing] at hb
      cases hb
      rw [hbuf, cstr_of_split] at hm hocc
      rcases hmiss with h | h
      · exact h (infix_of_infix_cstr _ _ hm)
      · exact h ind hmem (infix_of_infix_cstr _ _ hocc)
  · have hs : ∀ needle, strstr (cstr buf) needle = strstr buf needle := by
      intro needle
      simp [strstr, cstr_cstr]
    have hl : ∀ l b, indicatorLoop (cstr buf) l b = indicatorLoop buf l b := by
      intro l
      induction l with
      | nil => intro b; rfl
      | cons ind rest ih =>
        intro b
        simp [indicatorLoop, hs, ih]
    rw [identify_eq, identify_eq]
    simp only [hpin, hing, hs, hl]
    by_cases h1 : poOpenInfo.fpL = none ∨ specQuickCheck poOpenInfo.pabyHeader = false
    · simp [h1]
    · simp only [h1, if_false, Bool.false_eq_true]
      split_ifs <;> simp

theorem identify_stops_at_zero_byte_witness :
    (OGRNASDriverIdentify templateConfig
      (sampleInfo zeroThenMarker false (some zeroThenMarker))).ret = false ∧
    cstr zeroThenMarker = bytes "<a>" ∧
    (OGRNASDriverIdentify templateConfig
      { sampleInfo zeroThenMarker false (some zeroThenMarker) with
        TryToIngest := fun _ => some (cstr zeroThenMarker) }).ret =
    (OGRNASDriverIdentify templateConfig
      (sampleInfo zeroThenMarker false (some zeroThenMarker))).ret :=
  ⟨(identify_stops_at_zero_byte templateConfig
      (sampleInfo zeroThenMarker false (some zeroThenMarker)) zeroThenMarker (by decide)
      rfl).1 (bytes "<a>") (bytes "opengis.net/gml aaa.xsd") (by decide)
      (Or.inl (by decide)),
    by decide,
    (identify_stops_at_zero_byte templateConfig
      (sampleInfo zeroThenMarker false (some zeroThenMarker)) zeroThenMarker (by decide)
      rfl).2.1⟩

/-! ## Facts about the registration -/

theorem entries_eq_count (catalog : DriverCatalog) (pszName : String) :
    catalog.entries pszName = (catalog.drivers.map GDALDriver.description).count pszName := by
  unfold DriverCatalog.entries
  rw [List.count, List.countP_map, List.countP_eq_length_filter]
  rfl

theorem entries_le_one (catalog : DriverCatalog) (pszName : String) :
    catalog.entries pszName ≤ 1 := by
  rw [entries_eq_count]
  exact List.nodup_iff_count_le_one.1 catalog.keyed pszName

theorem entries_pos_of_found (catalog : DriverCatalog) (pszName : String)
    (h : (GDALGetDriverByName catalog pszName).isSome = true) :
    0 < catalog.entries pszName := by
  rw [GDALGetDriverByName, List.find?_isSome] at h
  obtain ⟨d, hd, hp⟩ := h
  unfold DriverCatalog.entries
  exact List.length_pos_of_mem (List.mem_filter.2 ⟨hd, hp⟩)

theorem register_of_found (catalog : DriverCatalog)
    (h : (GDALGetDriverByName catalog "NAS").isSome = true) :
    RegisterOGRNAS catalog = catalog := by
  simp [RegisterOGRNAS, h]

theorem found_after_register (catalog : DriverCatalog) :
    (GDALGetDriverByName (RegisterOGRNAS catalog) "NAS").isSome = true := by
  by_cases h : (GDALGetDriverByName catalog "NAS").isSome = true
  · rw [register_of_found catalog h]
    exact h
  · have hname : nasDriver.description = "NAS" := rfl
    have h2 : ¬ (GDALGetDriverByName catalog nasDriver.description).isSome = true := by
      rwa [hname]
    simp only [RegisterOGRNAS, h, if_false, RegisterDriver, dif_neg h2]
    simp [GDALGetDriverByName, List.find?_append, hname]

/-- C12: for every catalog, calling `RegisterOGRNAS` twice gives the catalog that calling it
once gives, that catalog has exactly one driver named "NAS", and a catalog that already has
a driver named "NAS" is left as it is. -/
theorem register_idempotent (catalog : DriverCatalog) :
    RegisterOGRNAS (RegisterOGRNAS catalog) = RegisterOGRNAS catalog ∧
    (RegisterOGRNAS catalog).entries "NAS" = 1 ∧
    ((GDALGetDriverByName catalog "NAS").isSome = true → RegisterOGRNAS catalog = catalog) := by
  refine ⟨register_of_found _ (found_after_register catalog), ?_, register_of_found catalog⟩
  have h1 := entries_le_one (RegisterOGRNAS catalog) "NAS"
  have h2 := entries_pos_of_found _ _ (found_after_register catalog)
  omega

theorem register_idempotent_witness :
    (RegisterOGRNAS emptyCatalog).drivers.map GDALDriver.description = ["NAS"] ∧
    RegisterOGRNAS (RegisterOGRNAS emptyCatalog) = RegisterOGRNAS emptyCatalog ∧
    (RegisterOGRNAS emptyCatalog).entries "NAS" = 1 :=
  ⟨by decide, (register_idempotent emptyCatalog).1, (register_idempotent emptyCatalog).2.1⟩

/-! ## Facts about the scans on memory -/

theorem get?_append_zero (s tail : List Nat) :
    ∀ k : Nat, k ≤ s.length → (s ++ 0 :: tail).get? k = some (deref (s.drop k)) := by
  induction s with
  | nil =>
    intro k hk
    have : k = 0 := by simpa using hk
    subst this
    rfl
  | cons c cs ih =>
    intro k hk
    cases k with
    | zero => rfl
    | succ k =>
      have hk2 : k ≤ cs.length := by simpa using hk
      simpa using ih k hk2

/-- The whitespace loop on memory stops at or before the terminator, reads nothing behind
the offset at which it stops, and stops where the loop of the driver stops. -/
theorem skipSpacesMem_spec (s : List Nat) :
    ∀ p : Nat, ∃ k rs, k ≤ s.length ∧
      (∀ tail, skipSpacesMem p (s ++ 0 :: tail) = some (p + k, rs)) ∧
      skipSpaces s = s.drop k ∧ (∀ i ∈ rs, i ≤ p + k) := by
  induction s with
  | nil =>
    intro p
    exact ⟨0, [p], le_refl _, fun tail => by simp [skipSpacesMem], rfl, by simp⟩
  | cons c cs ih =>
    intro p
    by_cases hc : c ≠ 0 ∧ isspace c = true
    · obtain ⟨k, rs, hk, hrun, hdrop, hrs⟩ := ih (p + 1)
      refine ⟨k + 1, p :: rs, by simpa using hk, ?_, ?_, ?_⟩
      · intro tail
        have e : p + 1 + k = p + (k + 1) := by omega
        show skipSpacesMem p (c :: (cs ++ 0 :: tail)) = _
        rw [skipSpacesMem, if_pos hc, hrun tail, e]
        rfl
      · rw [skipSpaces, if_pos hc, hdrop]
        rfl
      · intro i hi
        rcases List.mem_cons.1 hi with rfl | hi
        · omega
        · have := hrs i hi
          omega
    · refine ⟨0, [p], Nat.zero_le _, ?_, ?_, by simp⟩
      · intro tail
        show skipSpacesMem p (c :: (cs ++ 0 :: tail)) = _
        rw [skipSpacesMem, if_neg hc]
        rfl
      · rw [skipSpaces, if_neg hc]
        rfl

theorem memcmpMem_bom (a b c : Nat) :
    ∃ rs, (∀ rest, memcmpMem 0 (a :: b :: c :: rest) utf8BOM 3 =
        some (memcmp (a :: b :: c :: rest) utf8BOM 3, rs)) ∧ ∀ i ∈ rs, i ≤ 2 := by
  by_cases ha : a = 239
  · by_cases hb : b = 187
    · by_cases hc : c = 191
      · exact ⟨[0, 1, 2], fun rest => by simp [memcmpMem, memcmp, utf8BOM, deref, ha, hb, hc],
          by simp⟩
      · exact ⟨[0, 1, 2], fun rest => by simp [memcmpMem, memcmp, utf8BOM, deref, ha, hb, hc],
          by simp⟩
    · exact ⟨[0, 1], fun rest => by simp [memcmpMem, memcmp, utf8BOM, deref, ha, hb],
        by simp⟩
  · exact ⟨[0], fun rest => by simp [memcmpMem, memcmp, utf8BOM, deref, ha], by simp⟩

theorem get?_three_add (a b c : Nat) (m : List Nat) (k : Nat) :
    (a :: b :: c :: m).get? (3 + k) = m.get? k := by
  have e : 3 + k = k + 1 + 1 + 1 := by omega
  rw [e]
  rfl

/-- Lines 52-69 on memory: with the terminator behind the header the scan has a result,
the same whatever follows the terminator; it reads no offset behind the terminator, stops
at or before it, decides the chevron test of the driver, and calls `memcmp` only on a
header of more than three bytes. -/
theorem quickCheckMem_spec (poOpenInfo : GDALOpenInfo) :
    ∃ scan : QuickScan,
      (∀ tail, quickCheckMem (poOpenInfo.pabyHeader ++ 0 :: tail) poOpenInfo.nHeaderBytes =
        some scan) ∧
      (∀ i ∈ scan.reads, i ≤ poOpenInfo.nHeaderBytes) ∧
      scan.cursor ≤ poOpenInfo.nHeaderBytes ∧
      (scan.pass = true ↔ deref (skipSpaces (skipBOM poOpenInfo)) = 60) ∧
      (scan.bomCompared = true ↔ poOpenInfo.nHeaderBytes > 3) := by
  rcases poOpenInfo with ⟨fp, hdr, acc, name, pin, ing⟩
  simp only [GDALOpenInfo.nHeaderBytes, skipBOM]
  by_cases hlen : hdr.length > 3
  · rcases hdr with _ | ⟨a, _ | ⟨b, _ | ⟨c, _ | ⟨d, t⟩⟩⟩⟩
    · simp at hlen
    · simp at hlen
    · simp at hlen
    · simp at hlen
    obtain ⟨rsm, hm, hrsm⟩ := memcmpMem_bom a b c
    by_cases hz : memcmp (a :: b :: c :: d :: t) utf8BOM 3 = 0
    · obtain ⟨k, rs, hk, hrun, hdrop, hrs⟩ := skipSpacesMem_spec (d :: t) 3
      have hlen4 : (a :: b :: c :: d :: t).length = 3 + (d :: t).length := by
        simp only [List.length_cons]
        omega
      refine ⟨⟨deref ((d :: t).drop k) == 60, 3 + k, rsm ++ rs ++ [3 + k], true⟩,
        ?_, ?_, ?_, ?_, ?_⟩
      · intro tail
        have hz2 : memcmp (a :: b :: c :: (d :: t ++ 0 :: tail)) utf8BOM 3 = 0 :=
          (memcmp_bom a b c _).2 ((memcmp_bom a b c _).1 hz)
        have hg := get?_append_zero (d :: t) tail k hk
        show quickCheckMem (a :: b :: c :: (d :: t ++ 0 :: tail)) _ = _
        simp only [quickCheckMem, hlen, if_true, hm, hz2, List.drop_succ_cons, List.drop_zero,
          hrun tail, get?_three_add, hg]
      · intro i hi
        simp only [List.mem_append, List.mem_singleton] at hi
        rcases hi with (hi | hi) | hi
        · have := hrsm i hi
          omega
        · have := hrs i hi
          omega
        · omega
      · show 3 + k ≤ _
        omega
      · simp only [hlen, hz, and_self, if_true, List.drop_succ_cons, List.drop_zero, hdrop,
          beq_iff_eq]
      · simp [hlen]
    · obtain ⟨k, rs, hk, hrun, hdrop, hrs⟩ := skipSpacesMem_spec (a :: b :: c :: d :: t) 0
      refine ⟨⟨deref ((a :: b :: c :: d :: t).drop k) == 60, 0 + k, rsm ++ rs ++ [0 + k],
        true⟩, ?_, ?_, ?_, ?_, ?_⟩
      · intro tail
        have hz2 : ¬ memcmp (a :: b :: c :: (d :: t ++ 0 :: tail)) utf8BOM 3 = 0 :=
          fun h => hz ((memcmp_bom a b c _).2 ((memcmp_bom a b c _).1 h))
        have hg := get?_append_zero (a :: b :: c :: d :: t) tail k hk
        have hrun2 := hrun tail
        simp only [List.cons_append, Nat.zero_add] at hg hrun2 hz2
        show quickCheckMem (a :: b :: c :: (d :: t ++ 0 :: tail)) _ = _
        simp only [quickCheckMem, hlen, if_true, hm, List.cons_append, hz2, if_false,
          List.drop_zero, hrun2, Nat.zero_add, hg]
      · intro i hi
        simp only [List.mem_append, List.mem_singleton] at hi
        rcases hi with (hi | hi) | hi
        · have := hrsm i hi
          simp only [List.length_cons]
          omega
        · have := hrs i hi
          omega
        · omega
      · show 0 + k ≤ _
        omega
      · simp only [hlen, hz, and_false, if_false, hdrop, beq_iff_eq]
      · simp [hlen]
  · obtain ⟨k, rs, hk, hrun, hdrop, hrs⟩ := skipSpacesMem_spec hdr 0
    refine ⟨⟨deref (hdr.drop k) == 60, 0 + k, [] ++ rs ++ [0 + k], false⟩, ?_, ?_, ?_, ?_, ?_⟩
    · intro tail
      have hg := get?_append_zero hdr tail k hk
      simp only [quickCheckMem, hlen, if_false, List.drop_zero, hrun tail, Nat.zero_add, hg]
    · intro i hi
      simp only [List.nil_append, List.mem_append, List.mem_singleton] at hi
      rcases hi with hi | hi
      · have := hrs i hi
        omega
      · omega
    · show 0 + k ≤ _
      omega
    · simp only [hlen, false_and, if_false, hdrop, beq_iff_eq]
    · simp [hlen]

theorem matchAtMem_nil (p : Nat) (mem : List Nat) : matchAtMem p mem [] = some (true, []) := by
  cases mem <;> rfl

theorem matchAtMem_spec (needle : List Nat) (hn : 0 ∉ needle) :
    ∀ (s : List Nat) (p : Nat), ∃ b rs,
      (∀ tail, matchAtMem p (s ++ 0 :: tail) needle = some (b, rs)) ∧
      (b = true ↔ needle <+: s) ∧ (∀ i ∈ rs, i ≤ p + s.length) := by
  induction needle with
  | nil =>
    intro s p
    exact ⟨true, [], fun tail => matchAtMem_nil _ _, by simp, by simp⟩
  | cons d ds ih =>
    have hd : ¬ 0 = d := fun h => hn (h ▸ List.mem_cons_self _ _)
    have hds : 0 ∉ ds := fun h => hn (List.mem_cons_of_mem _ h)
    intro s p
    cases s with
    | nil =>
      refine ⟨false, [p], ?_, by simp, by simp⟩
      intro tail
      show matchAtMem p (0 :: tail) (d :: ds) = _
      rw [matchAtMem, if_neg hd]
    | cons c cs =>
      by_cases hcd : c = d
      · obtain ⟨b, rs, hrun, hb, hrs⟩ := ih hds cs (p + 1)
        refine ⟨b, p :: rs, ?_, ?_, ?_⟩
        · intro tail
          show matchAtMem p (c :: (cs ++ 0 :: tail)) (d :: ds) = _
          rw [matchAtMem, if_pos hcd, hrun tail]
          rfl
        · rw [hb, hcd, List.cons_prefix_cons]
          simp
        · intro i hi
          rcases List.mem_cons.1 hi with rfl | hi
          · omega
          · have := hrs i hi
            simp only [List.length_cons]
            omega
      · refine ⟨false, [p], ?_, ?_, by simp⟩
        · intro tail
          show matchAtMem p (c :: (cs ++ 0 :: tail)) (d :: ds) = _
          rw [matchAtMem, if_neg hcd]
        · rw [List.cons_prefix_cons]
          simp [Ne.symm (Ne.symm hcd)]
          intro h
          exact absurd h.symm hcd

/-- The scan of `strstr` on memory: with a terminator behind the C string `s` it has a
result, the same whatever follows the terminator; it finds the needle exactly when the
needle occurs in `s`, reads no offset behind the terminator, and reads the terminator when
it does not find the needle. -/
theorem strstrScan_spec (needle : List Nat) (hn : 0 ∉ needle) (hne : needle ≠ []) :
    ∀ (s : List Nat), 0 ∉ s → ∀ p : Nat, ∃ r rs,
      (∀ tail, strstrScan needle p (s ++ 0 :: tail) = some (r, rs)) ∧
      (r.isSome = true ↔ needle <:+: s) ∧ (∀ i ∈ rs, i ≤ p + s.length) ∧
      (r = none → p + s.length ∈ rs) := by
  intro s
  induction s with
  | nil =>
    intro _ p
    refine ⟨none, [p], ?_, ?_, by simp, by simp⟩
    · intro tail
      show strstrScan needle p (0 :: tail) = _
      rw [strstrScan, if_pos rfl]
    · simp [hne]
  | cons c cs ih =>
    intro hs p
    have hc : ¬ c = 0 := fun h => hs (h ▸ List.mem_cons_self _ _)
    have hcs : 0 ∉ cs := fun h => hs (List.mem_cons_of_mem _ h)
    obtain ⟨b, rs1, hrun1, hb, hrs1⟩ := matchAtMem_spec needle hn (c :: cs) p
    cases b with
    | true =>
      refine ⟨some p, rs1, ?_, ?_, hrs1, by simp⟩
      · intro tail
        have h1 := hrun1 tail
        simp only [List.cons_append] at h1
        show strstrScan needle p (c :: (cs ++ 0 :: tail)) = _
        rw [strstrScan, if_neg hc, h1]
        rfl
      · simp only [Option.isSome_some, true_iff]
        exact (hb.1 rfl).isInfix
    | false =>
      obtain ⟨r, rs2, hrun2, hr, hrs2, hterm⟩ := ih hcs (p + 1)
      have hnp : ¬ needle <+: c :: cs := fun h => Bool.false_ne_true (hb.2 h)
      refine ⟨r, rs1 ++ rs2, ?_, ?_, ?_, ?_⟩
      · intro tail
        have h1 := hrun1 tail
        simp only [List.cons_append] at h1
        show strstrScan needle p (c :: (cs ++ 0 :: tail)) = _
        rw [strstrScan, if_neg hc, h1]
        simp only [Bool.false_eq_true, if_false, hrun2 tail, Option.map_some']
      · rw [hr, List.infix_cons_iff]
        simp [hnp]
      · intro i hi
        rcases List.mem_append.1 hi with hi | hi
        · exact hrs1 i hi
        · have := hrs2 i hi
          simp only [List.length_cons]
          omega
      · intro hnone
        have := hterm hnone
        have e : p + (c :: cs).length = p + 1 + cs.length := by
          simp only [List.length_cons]
          omega
        rw [e]
        exact List.mem_append_right _ this

theorem cstr_split (buf tail : List Nat) :
    ∃ tail2, buf ++ 0 :: tail = cstr buf ++ 0 :: tail2 := by
  induction buf with
  | nil => exact ⟨tail, rfl⟩
  | cons c cs ih =>
    by_cases hc : c = 0
    · subst hc
      exact ⟨cs ++ 0 :: tail, by simp [cstr_zero_cons]⟩
    · obtain ⟨t2, ht2⟩ := ih
      exact ⟨t2, by rw [cstr_cons_of_ne_zero c cs hc, List.cons_append, ht2, List.cons_append]⟩

theorem cstr_length_le (buf : List Nat) : (cstr buf).length ≤ buf.length :=
  (cstr_initial buf).length_le

/-- The function `strstr` on the memory of a buffer followed by its terminator: it has a
result, the same whatever follows the terminator; it finds the needle exactly when `strstr`
of the driver does, reads no offset behind the terminator, and reads the first zero byte
when it does not find the needle. -/
theorem strstrMem_spec (buf needle : List Nat) :
    ∃ r rs, (∀ tail, strstrMem (buf ++ 0 :: tail) needle = some (r, rs)) ∧
      r.isSome = (strstr buf needle).isSome ∧ (∀ i ∈ rs, i ≤ buf.length) ∧
      (r = none → (cstr buf).length ∈ rs) := by
  by_cases hempty : (cstr needle).isEmpty = true
  · refine ⟨some 0, [], fun tail => by simp [strstrMem, hempty], ?_, by simp, by simp⟩
    have hnil : cstr needle = [] := List.isEmpty_iff.1 hempty
    have : (strstr buf needle).isSome = true := by
      rw [strstr_isSome, hnil]
      exact List.nil_infix
    rw [this]
    rfl
  · have hne : cstr needle ≠ [] := fun h => hempty (List.isEmpty_iff.2 h)
    obtain ⟨r, rs, hrun, hr, hrs, hterm⟩ :=
      strstrScan_spec (cstr needle) (cstr_no_zero needle) hne (cstr buf) (cstr_no_zero buf) 0
    refine ⟨r, rs, ?_, ?_, ?_, ?_⟩
    · intro tail
      obtain ⟨tail2, ht2⟩ := cstr_split buf tail
      simp only [strstrMem, hempty, if_false, Bool.false_eq_true, ht2]
      exact hrun tail2
    · rw [Bool.eq_iff_iff, hr, strstr_isSome]
    · intro i hi
      have := hrs i hi
      have := cstr_length_le buf
      omega
    · intro hnone
      simpa using hterm hnone

theorem indicatorLoopMem_spec (buf : List Nat) :
    ∀ (l : List (List Nat)) (b : Bool), ∃ rs,
      (∀ tail, indicatorLoopMem (buf ++ 0 :: tail) l b = some (indicatorLoop buf l b, rs)) ∧
      ∀ i ∈ rs, i ≤ buf.length := by
  intro l
  induction l with
  | nil =>
    intro b
    exact ⟨[], fun tail => rfl, by simp⟩
  | cons ind rest ih =>
    intro b
    cases b with
    | true => exact ⟨[], fun tail => by simp [indicatorLoopMem, indicatorLoop], by simp⟩
    | false =>
      obtain ⟨r, rs1, hrun1, hr, hrs1, _⟩ := strstrMem_spec buf ind
      obtain ⟨rs2, hrun2, hrs2⟩ := ih r.isSome
      refine ⟨rs1 ++ rs2, ?_, ?_⟩
      · intro tail
        have h2 := hrun2 tail
        rw [hr] at h2
        simp only [indicatorLoopMem, indicatorLoop, Bool.false_eq_true, if_false, hrun1 tail,
          hr, h2, Option.map_some']
      · intro i hi
        rcases List.mem_append.1 hi with hi | hi
        · exact hrs1 i hi
        · exact hrs2 i hi

/-- Lines 79-107 on the memory of a buffer followed by its terminator: the scan has a
result, the same whatever follows the terminator, with the verdict and the diagnostic of
the driver; it reads no offset behind the terminator, and it reads the first zero byte when
the marker is not found. -/
theorem deepCheckMem_spec (cfg : Config) (buf : List Nat) :
    ∃ rs, (∀ tail, deepCheckMem cfg (buf ++ 0 :: tail) =
        some (if strstr buf gmlMarker = none then ⟨false, [], rs⟩
          else if indicatorLoop buf (loadIndicators cfg) false = true ∧
              cfg "NAS_GFS_TEMPLATE" = none then
            ⟨false, [Event.debug "NAS" templateHint], rs⟩
          else ⟨indicatorLoop buf (loadIndicators cfg) false, [], rs⟩)) ∧
      (∀ i ∈ rs, i ≤ buf.length) ∧
      (strstr buf gmlMarker = none → (cstr buf).length ∈ rs) := by
  obtain ⟨r, rs1, hrun1, hr, hrs1, hterm⟩ := strstrMem_spec buf gmlMarker
  cases r with
  | none =>
    have hnone : strstr buf gmlMarker = none := by
      cases h : strstr buf gmlMarker
      · rfl
      · rw [h] at hr
        simp at hr
    refine ⟨rs1, ?_, hrs1, fun _ => hterm rfl⟩
    intro tail
    simp only [deepCheckMem, hrun1 tail, hnone, if_true]
  | some off =>
    have hsome : ¬ strstr buf gmlMarker = none := by
      intro h
      rw [h] at hr
      simp at hr
    obtain ⟨rs2, hrun2, hrs2⟩ := indicatorLoopMem_spec buf (loadIndicators cfg) false
    refine ⟨rs1 ++ rs2, ?_, ?_, fun h => absurd h hsome⟩
    · intro tail
      simp only [deepCheckMem, hrun1 tail, hrun2 tail, hsome, if_false, getConfigOption_none]
      split_ifs <;> rfl
    · intro i hi
      rcases List.mem_append.1 hi with hi | hi
      · exact hrs1 i hi
      · exact hrs2 i hi

/-- C13: on a header of fewer than three bytes, kept in memory with its terminator behind
it, lines 52-69 have a result that is the same whatever follows the terminator: `memcmp` is
not called, no offset behind the terminator is read, the whitespace loop stops at or before
the terminator, and the test passes exactly when the first byte of the header that is not
ASCII whitespace is `<`, which is also what the chevron test of `OGRNASDriverIdentify`
decides on a request with that header. -/
theorem quick_check_short_header (hdr : List Nat) (hlen : hdr.length < 3) :
    ∃ scan : QuickScan,
      (∀ tail, quickCheckMem (hdr ++ 0 :: tail) hdr.length = some scan) ∧
      scan.bomCompared = false ∧
      (∀ i ∈ scan.reads, i ≤ hdr.length) ∧
      scan.cursor ≤ hdr.length ∧
      (scan.pass = true ↔ (hdr.dropWhile asciiWhitespace).head? = some 60) ∧
      (∀ poOpenInfo : GDALOpenInfo, poOpenInfo.pabyHeader = hdr →
        (scan.pass = true ↔ deref (skipSpaces (skipBOM poOpenInfo)) = 60)) := by
  obtain ⟨scan, hrun, hreads, hcur, hpass, hbom⟩ :=
    quickCheckMem_spec ⟨none, hdr, GDALAccess.GA_ReadOnly, "", fun _ => false, fun _ => none⟩
  simp only [GDALOpenInfo.nHeaderBytes] at hrun hreads hcur hbom
  have hn3 : ¬ hdr.length > 3 := by omega
  have hskip : ∀ poOpenInfo : GDALOpenInfo, poOpenInfo.pabyHeader = hdr →
      skipBOM poOpenInfo = hdr := by
    intro poOpenInfo hh
    simp [skipBOM, GDALOpenInfo.nHeaderBytes, hh, hn3]
  rw [hskip _ rfl] at hpass
  refine ⟨scan, hrun, ?_, hreads, hcur, ?_, ?_⟩
  · cases hb : scan.bomCompared
    · rfl
    · exact absurd (hbom.1 hb) hn3
  · rw [hpass, skipSpaces_eq_dropWhile, deref_eq_chevron, asciiWhitespace_eq_isspace]
  · intro poOpenInfo hh
    rw [hpass, hskip poOpenInfo hh]

theorem quick_check_short_header_witness :
    quickCheckMem ([32, 60] ++ [0, 60, 60]) 2 = some ⟨true, 1, [0, 1, 1], false⟩ ∧
    ∃ scan : QuickScan,
      (∀ tail, quickCheckMem ([32, 60] ++ 0 :: tail) [32, 60].length = some scan) ∧
      scan.bomCompared = false ∧
      (∀ i ∈ scan.reads, i ≤ [32, 60].length) ∧
      scan.cursor ≤ [32, 60].length ∧
      (scan.pass = true ↔ ([32, 60].dropWhile asciiWhitespace).head? = some 60) ∧
      (∀ poOpenInfo : GDALOpenInfo, poOpenInfo.pabyHeader = [32, 60] →
        (scan.pass = true ↔ deref (skipSpaces (skipBOM poOpenInfo)) = 60)) :=
  ⟨by decide, quick_check_short_header [32, 60] (by decide)⟩

/-- C17, amended: for a non-pinned request with a handle that passes QuickCheck and whose
ingest returns the `n` bytes `buf`, kept in memory with the terminator at offset `n`, lines
79-107 have a result that is the same whatever follows the terminator: the verdict and the
diagnostic of `OGRNASDriverIdentify`.  No offset behind the terminator is read.  When the
marker is not found, the first zero byte of the memory is read: the terminator at offset `n`
when the buffer holds no zero byte, the first zero byte of the buffer otherwise. -/
theorem deep_check_within_terminator (cfg : Config) (poOpenInfo : GDALOpenInfo)
    (buf : List Nat)
    (hfp : poOpenInfo.fpL ≠ none) (hqc : specQuickCheck poOpenInfo.pabyHeader = true)
    (hpin : poOpenInfo.IsSingleAllowedDriver "NAS" = false)
    (hing : poOpenInfo.TryToIngest 8192 = some buf) :
    ∃ reads,
      (∀ tail, deepCheckMem cfg (buf ++ 0 :: tail) =
        some ⟨(OGRNASDriverIdentify cfg poOpenInfo).ret,
          (OGRNASDriverIdentify cfg poOpenInfo).events.filter Event.isDiagnostic, reads⟩) ∧
      (∀ i ∈ reads, i ≤ buf.length) ∧
      (¬ gmlMarker <:+: cstr buf → (cstr buf).length ∈ reads) ∧
      (0 ∉ buf → ¬ gmlMarker <:+: buf → buf.length ∈ reads) := by
  obtain ⟨rs, hrun, hrs, hterm⟩ := deepCheckMem_spec cfg buf
  have hfirst : ¬ gmlMarker <:+: cstr buf → (cstr buf).length ∈ rs := by
    intro hm
    exact hterm (by rw [strstr_eq_none, cstr_gmlMarker]; exact hm)
  refine ⟨rs, ?_, hrs, hfirst, ?_⟩
  · intro tail
    rw [hrun tail, identify_deep cfg poOpenInfo buf hfp hqc hpin hing]
    split_ifs <;> simp [Event.isDiagnostic]
  · intro hz hm
    have hc := cstr_of_no_zero buf hz
    rw [hc] at hfirst
    exact hfirst hm

theorem deep_check_within_terminator_witness :
    (∃ reads,
      (∀ tail, deepCheckMem templateConfig (indicatorOnly ++ 0 :: tail) =
        some ⟨false, [], reads⟩) ∧
      (∀ i ∈ reads, i ≤ indicatorOnly.length) ∧
      indicatorOnly.length ∈ reads) ∧
    (∃ reads,
      (∀ tail, deepCheckMem templateConfig (zeroThenMarker ++ 0 :: tail) =
        some ⟨false, [], reads⟩) ∧
      (∀ i ∈ reads, i ≤ zeroThenMarker.length) ∧
      3 ∈ reads) := by
  constructor
  · obtain ⟨reads, h1, h2, _, h4⟩ :=
      deep_check_within_terminator templateConfig
        (sampleInfo indicatorOnly false (some indicatorOnly)) indicatorOnly
        (by decide) (by decide) (by decide) rfl
    have e1 : (OGRNASDriverIdentify templateConfig
        (sampleInfo indicatorOnly false (some indicatorOnly))).ret = false := by decide
    have e2 : (OGRNASDriverIdentify templateConfig
        (sampleInfo indicatorOnly false (some indicatorOnly))).events.filter
        Event.isDiagnostic = [] := by decide
    rw [e1, e2] at h1
    exact ⟨reads, h1, h2, h4 (by decide) (by decide)⟩
  · obtain ⟨reads, h1, h2, h3, _⟩ :=
      deep_check_within_terminator templateConfig
        (sampleInfo zeroThenMarker false (some zeroThenMarker)) zeroThenMarker
        (by decide) (by decide) (by decide) rfl
    have e1 : (OGRNASDriverIdentify templateConfig
        (sampleInfo zeroThenMarker false (some zeroThenMarker))).ret = false := by decide
    have e2 : (OGRNASDriverIdentify templateConfig
        (sampleInfo zeroThenMarker false (some zeroThenMarker))).events.filter
        Event.isDiagnostic = [] := by decide
    have e3 : (cstr zeroThenMarker).length = 3 := by decide
    rw [e1, e2] at h1
    rw [e3] at h3
    exact ⟨reads, h1, h2, h3 (by decide)⟩

/-- C17 as stated fails.  On the three-byte buffer `<a>` the marker search reads offset 3,
the terminator that follows the last byte of the buffer.  And `overrunMemory` agrees with
`shortMemory` on the first three bytes and differs from it only from offset 3 on, yet the
verdicts differ. -/
theorem deep_check_terminator_counterexample :
    (bytes "<a>").length = 3 ∧
    shortMemory = bytes "<a>" ++ 0 :: [0] ∧
    (deepCheckMem templateConfig shortMemory).map DeepScan.reads = some [0, 1, 2, 3] ∧
    shortMemory.take 3 = overrunMemory.take 3 ∧
    (deepCheckMem templateConfig shortMemory).map DeepScan.ret = some false ∧
    (deepCheckMem templateConfig overrunMemory).map DeepScan.ret = some true := by
  decide

end OGRNAS
